import Mathlib

set_option maxRecDepth 20000
set_option maxHeartbeats 2000000

/-!
Shallow embedding of the tar-archive accessor library (`lib_tar.c`,
`soumission` variant — the complete implementation in the repository).

Modelling conventions:
* The seekable byte source is a `List Nat` of byte values; the file-descriptor
  position is an explicit `Nat` index.
* `read(fd, buf, 512)` succeeds exactly when 512 bytes remain
  (`readBlock`); `lseek` always succeeds (the source is seekable), so the
  C error branches guarded by `lseek(...) == -1` are never taken.
* C strings are byte lists; reading a field of the 512-byte header struct is
  reading the block at the field's byte offset, so `strtol`/`strcmp` that run
  past a non-NUL-terminated field into the following fields are modelled
  faithfully by operating on the whole remaining block.
* Every scanning loop advances the position by at least 512 bytes per
  iteration and only iterates while `pos + 512 ≤ src.length`, so it performs
  at most `src.length / 512` iterations.  The loops are therefore written by
  structural recursion on a fuel argument, and the public wrappers pass
  `loopFuel src = src.length / 512 + 1`, which is strictly more than any
  possible number of iterations; the fuel-zero value of each loop is chosen
  equal to its end-of-source value, which is never reached with the canonical
  fuel.  The self-recursion of `get_symlink`, `read_file` and `list` through
  symlinks is genuinely unbounded in the C code, so it is modelled by a
  separate explicit hop fuel returning `none` ("the C code has not returned
  yet") on exhaustion.
-/

/-- Byte of a C object at index `i`; bytes past the represented region read
as 0, matching the zero padding of tar blocks. -/
def byteAt (b : List Nat) (i : Nat) : Nat := b.getD i 0

/-- Content of a C string: the bytes strictly before the first NUL. -/
def cstr (b : List Nat) : List Nat := b.takeWhile (fun c => c != 0)

/-- C `strlen`. -/
def strlen (b : List Nat) : Nat := (cstr b).length

/-- C `strncmp(a, b, n) == 0`: byte-wise comparison of at most `n` bytes,
stopping early at a common NUL. -/
def cstrncmpEq : List Nat → List Nat → Nat → Bool
  | _, _, 0 => true
  | a, b, n + 1 =>
    if a.headD 0 = b.headD 0 then
      if a.headD 0 = 0 then true else cstrncmpEq a.tail b.tail n
    else false

/-- C `strcmp(a, b) == 0`. -/
def strcmpEq (a b : List Nat) : Bool := cstr a == cstr b

/-- C `isspace` on a byte, as used by `strtol` to skip leading whitespace. -/
def isSpaceByte (c : Nat) : Bool := c == 32 || (9 ≤ c && c ≤ 13)

/-- Accumulate octal digits, stopping at the first non-octal byte. -/
def octDigits : List Nat → Nat → Nat
  | [], acc => acc
  | c :: rest, acc =>
    if 48 ≤ c ∧ c ≤ 55 then octDigits rest (acc * 8 + (c - 48)) else acc

/-- C `strtol(s, NULL, 8)`: skip whitespace, optional sign, octal digits.
Tar numeric fields are at most 12 bytes, so the `long` never overflows. -/
def parseOct (s : List Nat) : Int :=
  match s.dropWhile isSpaceByte with
  | 43 :: rest => (octDigits rest 0 : Int)
  | 45 :: rest => -(octDigits rest 0 : Int)
  | t => (octDigits t 0 : Int)

/-- Value of `strtol` stored into an `unsigned int`. -/
def parseOctU32 (s : List Nat) : Nat := ((parseOct s) % (2 ^ 32 : Int)).toNat

/-- Value of `strtol` stored into a `size_t`. -/
def parseOctU64 (s : List Nat) : Nat := ((parseOct s) % (2 ^ 64 : Int)).toNat

/-- Field `size` parsed from a header block (`strtol(header.size, NULL, 8)`
into `unsigned int`); offset of `size` in `struct posix_header` is 124. -/
def aligned_size (b : List Nat) : Nat :=
  let size := parseOctU32 (b.drop 124)
  if size % 512 = 0 then size else (size + (512 - size % 512)) % 2 ^ 32

/-- One `read(fd, &header, 512)`: succeeds iff 512 bytes remain at `pos`. -/
def readBlock (src : List Nat) (pos : Nat) : Option (List Nat) :=
  if pos + 512 ≤ src.length then some ((src.drop pos).take 512) else none

/-- Canonical loop fuel: strictly more than the number of blocks that fit in
the source, hence more than any scanning loop can iterate. -/
def loopFuel (src : List Nat) : Nat := src.length / 512 + 1

/-- Bytes of the `TMAGIC` literal, `"ustar"` with its terminating NUL. -/
def tmagicBytes : List Nat := [117, 115, 116, 97, 114, 0]

/-- Bytes of the `TVERSION` literal, `"00"`. -/
def tversionBytes : List Nat := [48, 48]

/-- C `strncmp(header.magic, TMAGIC, TMAGLEN) == 0`; `magic` is at offset 257. -/
def magicOk (b : List Nat) : Bool := cstrncmpEq (b.drop 257) tmagicBytes 6

/-- C `strncmp(header.version, TVERSION, TVERSLEN) == 0`; offset 263. -/
def versionOk (b : List Nat) : Bool := cstrncmpEq (b.drop 263) tversionBytes 2

/-- Sum of all 512 header bytes with the 8 checksum bytes (offsets 148..155)
replaced by ASCII space, exactly as `check_sum` computes it. -/
def sumBytes (b : List Nat) : Nat :=
  (List.range 512).foldl
    (fun acc i => acc + (if 148 ≤ i ∧ i ≤ 155 then 32 else byteAt b i)) 0

/-- C `check_sum`: computed sum equals the stored checksum parsed as octal. -/
def check_sum (b : List Nat) : Bool :=
  sumBytes b % 2 ^ 32 == parseOctU32 (b.drop 148)

/-- C `valid_archive(header, nheader)`: returns `nheader` when the first magic
byte is NUL (treated as end of archive), otherwise -1, -2, -3 for invalid
magic/version/checksum in that order, else 0. -/
def valid_archive (b : List Nat) (nheader : Nat) : Int :=
  if byteAt b 257 = 0 then (nheader : Int)
  else if magicOk b = false then -1
  else if versionOk b = false then -2
  else if check_sum b = false then -3
  else 0

/-- Loop of C `check_archive`: read a block, validate it, skip its content. -/
def check_archive_loop : Nat → List Nat → Nat → Nat → Int
  | 0, _, _, nheader => (nheader : Int)
  | fuel + 1, src, pos, nheader =>
    match readBlock src pos with
    | none => (nheader : Int)
    | some b =>
      let v := valid_archive b nheader
      if v ≠ 0 then v
      else check_archive_loop fuel src (pos + 512 + aligned_size b) (nheader + 1)

/-- C `check_archive(tar_fd)` with the descriptor at position 0. -/
def check_archive (src : List Nat) : Int :=
  check_archive_loop (loopFuel src) src 0 0

/-- Sequence of header blocks visited by the common scanning traversal
(read a block, skip `aligned_size` of content, repeat until end of source). -/
def blocks_loop : Nat → List Nat → Nat → List (List Nat)
  | 0, _, _ => []
  | fuel + 1, src, pos =>
    match readBlock src pos with
    | none => []
    | some b => b :: blocks_loop fuel src (pos + 512 + aligned_size b)

/-- Blocks visited from position `pos` of `src`. -/
def blocksFrom (src : List Nat) (pos : Nat) : List (List Nat) :=
  blocks_loop (loopFuel src) src pos

/-- Loop of C `exists`: result and the final descriptor position.  The
function returns without rewinding on a terminator or a match, and rewinds
to 0 only when the source is exhausted. -/
def exists_loop : Nat → List Nat → Nat → List Nat → Int × Nat
  | 0, _, _, _ => (0, 0)
  | fuel + 1, src, pos, path =>
    match readBlock src pos with
    | none => (0, 0)
    | some h =>
      if byteAt h 0 = 0 then (0, pos + 512)
      else if strcmpEq h path then (1, pos + 512)
      else exists_loop fuel src (pos + 512 + aligned_size h) path

/-- C `exists(tar_fd, path)` from descriptor position `pos`:
`(return value, final position)`. -/
def exists_st (src : List Nat) (pos : Nat) (path : List Nat) : Int × Nat :=
  exists_loop (loopFuel src) src pos path

/-- Header field `typeflag`, offset 156. -/
def typeflag (b : List Nat) : Nat := byteAt b 156

/-- Header field `linkname` read as a C string, offset 157. -/
def linkname (b : List Nat) : List Nat := cstr (b.drop 157)

/-- Loop of C `check_flag` (shared by `is_dir`/`is_file`/`is_symlink`):
`(return value, final position)`.  `REGTYPE` is byte 48, `AREGTYPE` byte 0. -/
def check_flag_loop : Nat → List Nat → Nat → List Nat → Nat → Int × Nat
  | 0, _, _, _, _ => (0, 0)
  | fuel + 1, src, pos, path, flag =>
    match readBlock src pos with
    | none => (0, 0)
    | some h =>
      if byteAt h 0 = 0 then (0, pos + 512)
      else if strcmpEq h path then
        if flag = 48 ∧ (typeflag h = 48 ∨ typeflag h = 0) then (1, pos + 512)
        else if typeflag h = flag then (1, pos + 512)
        else (0, pos + 512)
      else check_flag_loop fuel src (pos + 512 + aligned_size h) path flag

/-- C `check_flag(tar_fd, path, typeflag)` from position `pos`. -/
def check_flag_st (src : List Nat) (pos : Nat) (path : List Nat) (flag : Nat) :
    Int × Nat :=
  check_flag_loop (loopFuel src) src pos path flag

/-- Scan shared by `exists`/`get_symlink`/`read_file`: position and block of
the first entry whose `name` C-string equals `path`, stopping at the first
block whose name starts with NUL. -/
def find_loop : Nat → List Nat → Nat → List Nat → Option (Nat × List Nat)
  | 0, _, _, _ => none
  | fuel + 1, src, pos, path =>
    match readBlock src pos with
    | none => none
    | some h =>
      if byteAt h 0 = 0 then none
      else if strcmpEq h path then some (pos, h)
      else find_loop fuel src (pos + 512 + aligned_size h) path

/-- First matching entry scanned from position `pos`. -/
def find_entry (src : List Nat) (pos : Nat) (path : List Nat) :
    Option (Nat × List Nat) :=
  find_loop (loopFuel src) src pos path

/-- Outcome of one `read_file` scan: either a final `(return value,
bytes-written out-parameter, bytes copied to dest)` or a tail-recursive hop
through a symlink's `linkname`. -/
inductive ReadStep where
  | done : Int → Option Nat → List Nat → ReadStep
  | hop : List Nat → ReadStep
deriving DecidableEq

/-- Body of C `read_file` once the matching entry at position `p` is found:
dispatch on the typeflag, check the offset against the parsed size, then
copy `min(*len, file_size - offset)` bytes from the content. -/
def readDispatch (src : List Nat) (p : Nat) (h : List Nat)
    (offset cap : Nat) : ReadStep :=
  if typeflag h = 50 then .hop (linkname h)
  else if typeflag h ≠ 48 ∧ typeflag h ≠ 0 then .done (-1) none []
  else
    let file_size := parseOctU64 (h.drop 124)
    if offset ≥ file_size then .done (-2) none []
    else
      let cpos := p + 512 + offset
      let data_len := min cap (file_size - offset)
      let bytes_read := min data_len (src.length - cpos)
      .done ((file_size : Int) - (offset : Int) - (bytes_read : Int))
        (some bytes_read) ((src.drop cpos).take bytes_read)

/-- Scanning loop of C `read_file`, from position `pos`. -/
def read_scan_loop : Nat → List Nat → Nat → List Nat → Nat → Nat → ReadStep
  | 0, _, _, _, _, _ => .done (-1) none []
  | fuel + 1, src, pos, path, offset, cap =>
    match readBlock src pos with
    | none => .done (-1) none []
    | some h =>
      if byteAt h 0 = 0 then .done (-1) none []
      else if strcmpEq h path then readDispatch src pos h offset cap
      else read_scan_loop fuel src (pos + 512 + aligned_size h) path offset cap

/-- One invocation of C `read_file` scanning from position 0 (the symlink
recursion rewinds to 0 before each recursive call). -/
def read_scan (src path : List Nat) (offset cap : Nat) : ReadStep :=
  read_scan_loop (loopFuel src) src 0 path offset cap

/-- C `read_file(tar_fd, path, offset, dest, len)` with an explicit hop fuel
for its unbounded symlink self-recursion; `none` means the fuel was exhausted
while the C code was still recursing. -/
def read_file_fuel : Nat → List Nat → List Nat → Nat → Nat →
    Option (Int × Option Nat × List Nat)
  | fuel, src, path, offset, cap =>
    match read_scan src path offset cap with
    | .done r w bs => some (r, w, bs)
    | .hop link =>
      match fuel with
      | 0 => none
      | f + 1 => read_file_fuel f src link offset cap

/-- Outcome of one `get_symlink` frame's scan: NULL return, the
`strcat(path, "/")` return, or a recursive hop; each records the descriptor
position at the moment of return or recursion. -/
inductive GsOut where
  | nullOut : Nat → GsOut
  | strcatOut : Nat → GsOut
  | hopOut : List Nat → Nat → GsOut
deriving DecidableEq

/-- Body of C `get_symlink` once the matching entry at position `q` is found:
if it is a symlink, rewind, test `is_symlink(linkname)` and either hop from
the position that test left behind or fall through to the `strcat` return. -/
def gsDispatch (src : List Nat) (q : Nat) (h path : List Nat) : GsOut :=
  if typeflag h = 50 then
    let sp := check_flag_st src 0 (linkname h) 50
    if sp.1 ≠ 0 then .hopOut (linkname h) sp.2
    else .strcatOut sp.2
  else .strcatOut (q + 512)

/-- Scanning loop of one C `get_symlink` frame, from position `pos`. -/
def gs_scan_loop : Nat → List Nat → Nat → List Nat → GsOut
  | 0, _, _, _ => .nullOut 0
  | fuel + 1, src, pos, path =>
    match readBlock src pos with
    | none => .nullOut 0
    | some h =>
      if byteAt h 0 = 0 then .nullOut (pos + 512)
      else if strcmpEq h path then gsDispatch src pos h path
      else gs_scan_loop fuel src (pos + 512 + aligned_size h) path

/-- One C `get_symlink` frame's scan from position `pos`. -/
def gs_scan (src : List Nat) (pos : Nat) (path : List Nat) : GsOut :=
  gs_scan_loop (loopFuel src) src pos path

/-- C `get_symlink(tar_fd, path)` from position `pos`, with explicit hop fuel
for its unbounded self-recursion.  Result: `(return value, final position,
final content of the caller's path buffer)`; the return value is `none` when
the fuel ran out mid-recursion, `some none` for a NULL return, and
`some (some s)` for a returned string `s`.  `strcat(path, "/")` mutates the
supplied buffer, so the buffer component becomes `path ++ [47]` exactly when
this frame executes the `strcat` return. -/
def get_symlink_fuel : Nat → List Nat → Nat → List Nat →
    Option (Option (List Nat)) × Nat × List Nat
  | fuel, src, pos, path =>
    match gs_scan src pos path with
    | .nullOut p => (some none, p, path)
    | .strcatOut p => (some (some (path ++ [47])), p, path ++ [47])
    | .hopOut link p2 =>
      match fuel with
      | 0 => (none, p2, path)
      | f + 1 =>
        let r := get_symlink_fuel f src p2 link
        (r.1, r.2.1, path)

/-- C `strncpy(dst, srcbytes, 100)` into a fresh 100-byte buffer: copy bytes
up to a NUL or 100 bytes, padding the remainder with NULs. -/
def strncpy100 (srcbytes : List Nat) : List Nat :=
  ((srcbytes.take 100).takeWhile (fun c => c != 0)) ++
    List.replicate (100 - ((srcbytes.take 100).takeWhile (fun c => c != 0)).length) 0

/-- Buffer written by `list` for one matching entry: `strncpy` of the name
followed by `entries[count][99] = 0`. -/
def entryWrite (h : List Nat) : List Nat := (strncpy100 h).set 99 0

/-- Matching condition of the `list` loop: `strncmp(name, path, path_len)`
succeeds and the first slash of the remainder `name + path_len` is either
absent or the remainder's last character. -/
def childCond (h path : List Nat) : Bool :=
  cstrncmpEq h path (strlen path) &&
    (let r := cstr (h.drop (strlen path))
     (r.indexOf 47 == r.length) || (r.indexOf 47 + 1 == r.length))

/-- Main loop of C `list`, from position `pos`, with the caller capacity
`cap`, running count and already-written entries. -/
def list_loop : Nat → List Nat → Nat → List Nat → Nat → Nat →
    List (List Nat) → Nat × List (List Nat)
  | 0, _, _, _, _, count, acc => (count, acc)
  | fuel + 1, src, pos, path, cap, count, acc =>
    match readBlock src pos with
    | none => (count, acc)
    | some h =>
      if byteAt h 0 = 0 then (count, acc)
      else
        let step : Nat × List (List Nat) :=
          if childCond h path then
            if count < cap ∧ strcmpEq path h = false then
              (count + 1, acc ++ [entryWrite h])
            else (count, acc)
          else (count, acc)
        list_loop fuel src (pos + 512 + aligned_size h) path cap step.1 step.2

/-- C `list(tar_fd, path, entries, no_entries)` from position `pos` with
caller capacity `cap`, and explicit hop fuel for the symlink recursion.
Result `(return value, entries written, final value of the in-out count)`;
the count component is `none` when the call returns without storing to
`*no_entries`, and the whole result is `none` on fuel exhaustion. -/
def list_fuel : Nat → List Nat → Nat → List Nat → Nat →
    Option (Int × List (List Nat) × Option Nat)
  | fuel, src, pos, path, cap =>
    let d := check_flag_st src pos path 53
    let go : Bool × Nat :=
      if d.1 = 0 then
        let s1 := check_flag_st src d.2 path 50
        if s1.1 = 0 then (false, s1.2) else (true, s1.2)
      else (true, d.2)
    if go.1 = false then some (0, [], none)
    else
      let s2 := check_flag_st src go.2 path 50
      if s2.1 ≠ 0 then
        let g := get_symlink_fuel fuel src s2.2 path
        match g.1 with
        | none => none
        | some none => some (0, [], none)
        | some (some np) =>
          match fuel with
          | 0 => none
          | f + 1 => list_fuel f src g.2.1 np cap
      else
        let res := list_loop (loopFuel src) src 0 path cap 0 []
        some ((res.1 : Int), res.2, some res.1)

/-- Full entry path as the specification defines it: `prefix + "/" + name`
when the 155-byte field at offset 345 is non-empty, else `name` alone. -/
def specFullPath (b : List Nat) : List Nat :=
  if cstr (b.drop 345) = [] then cstr b else cstr (b.drop 345) ++ 47 :: cstr b

/-- Specification-side lookup (amended to the code's behaviour): scan the
visited blocks in archive order, stop at the first empty name, report 1 on
the first entry whose stored name equals the query exactly. -/
def specExistsName (bs : List (List Nat)) (path : List Nat) : Int :=
  match bs with
  | [] => 0
  | h :: rest =>
    if cstr h = [] then 0
    else if cstr h = cstr path then 1
    else specExistsName rest path

/-- Names of the scanned entries, in archive order, up to the first block
with an empty name. -/
def headerNames : List (List Nat) → List (List Nat)
  | [] => []
  | h :: rest => if cstr h = [] then [] else cstr h :: headerNames rest

/-- Specification-side "direct child" test, in the spec's words: the name
starts with the queried path as a literal prefix, is not the path itself, and
the remainder contains at most one slash which, if present, is the
remainder's final character. -/
def directChild (path name : List Nat) : Bool :=
  decide (path <+: name ∧ name ≠ path ∧
    ((name.drop path.length).count 47 = 0 ∨
      ((name.drop path.length).count 47 = 1 ∧
        (name.drop path.length).getLast? = some 47)))

/-- Specification-side listing: the direct children of `path` among the
scanned entry names, in archive order, truncated to the caller capacity. -/
def specListEntries (bs : List (List Nat)) (path : List Nat) (cap : Nat) :
    List (List Nat) :=
  ((headerNames bs).filter (fun n => directChild path n)).take cap

/-- Total number of entries matching the direct-child condition. -/
def specMatchCount (bs : List (List Nat)) (path : List Nat) : Nat :=
  ((headerNames bs).filter (fun n => directChild path n)).length

/-- Header blocks the `list` loop would write, in archive order, up to the
first empty name: those passing `childCond` and differing from the path. -/
def matchingBlocks : List (List Nat) → List Nat → List (List Nat)
  | [], _ => []
  | h :: rest, path =>
    if byteAt h 0 = 0 then []
    else if childCond h path ∧ strcmpEq path h = false then
      h :: matchingBlocks rest path
    else matchingBlocks rest path

/-- A list of `n` zero bytes. -/
def zeros (n : Nat) : List Nat := List.replicate n 0

/-- Header with name `"a"`, size `"0"`, typeflag regular, magic `"ustar"` with NUL, version `"00"` and correct checksum `"2120"` (octal for 1104). -/
def hdrValidA : List Nat :=
  [
  97, 0, 0, 0, 0, 0, 0, 0, 0, 0, 0, 0, 0, 0, 0, 0, 0, 0, 0, 0, 0, 0, 0, 0, 0, 0, 0, 0, 0, 0, 0,
  0, 0, 0, 0, 0, 0, 0, 0, 0, 0, 0, 0, 0, 0, 0, 0, 0, 0, 0, 0, 0, 0, 0, 0, 0, 0, 0, 0, 0, 0, 0,
  0, 0, 0, 0, 0, 0, 0, 0, 0, 0, 0, 0, 0, 0, 0, 0, 0, 0, 0, 0, 0, 0, 0, 0, 0, 0, 0, 0, 0, 0, 0,
  0, 0, 0, 0, 0, 0, 0, 0, 0, 0, 0, 0, 0, 0, 0, 0, 0, 0, 0, 0, 0, 0, 0, 0, 0, 0, 0, 0, 0, 0, 0,
  48, 0, 0, 0, 0, 0, 0, 0, 0, 0, 0, 0, 0, 0, 0, 0, 0, 0, 0, 0, 0, 0, 0, 0, 50, 49, 50, 48, 0, 0,
  0, 0, 48, 0, 0, 0, 0, 0, 0, 0, 0, 0, 0, 0, 0, 0, 0, 0, 0, 0, 0, 0, 0, 0, 0, 0, 0, 0, 0, 0, 0,
  0, 0, 0, 0, 0, 0, 0, 0, 0, 0, 0, 0, 0, 0, 0, 0, 0, 0, 0, 0, 0, 0, 0, 0, 0, 0, 0, 0, 0, 0, 0,
  0, 0, 0, 0, 0, 0, 0, 0, 0, 0, 0, 0, 0, 0, 0, 0, 0, 0, 0, 0, 0, 0, 0, 0, 0, 0, 0, 0, 0, 0, 0,
  0, 0, 0, 0, 0, 0, 0, 0, 0, 0, 117, 115, 116, 97, 114, 0, 48, 48, 0, 0, 0, 0, 0, 0, 0, 0, 0, 0,
  0, 0, 0, 0, 0, 0, 0, 0, 0, 0, 0, 0, 0, 0, 0, 0, 0, 0, 0, 0, 0, 0, 0, 0, 0, 0, 0, 0, 0, 0, 0,
  0, 0, 0, 0, 0, 0, 0, 0, 0, 0, 0, 0, 0, 0, 0, 0, 0, 0, 0, 0, 0, 0, 0, 0, 0, 0, 0, 0, 0, 0, 0,
  0, 0, 0, 0, 0, 0, 0, 0, 0, 0, 0, 0, 0, 0, 0, 0, 0, 0, 0, 0, 0, 0, 0, 0, 0, 0, 0, 0, 0, 0, 0,
  0, 0, 0, 0, 0, 0, 0, 0, 0, 0, 0, 0, 0, 0, 0, 0, 0, 0, 0, 0, 0, 0, 0, 0, 0, 0, 0, 0, 0, 0, 0,
  0, 0, 0, 0, 0, 0, 0, 0, 0, 0, 0, 0, 0, 0, 0, 0, 0, 0, 0, 0, 0, 0, 0, 0, 0, 0, 0, 0, 0, 0, 0,
  0, 0, 0, 0, 0, 0, 0, 0, 0, 0, 0, 0, 0, 0, 0, 0, 0, 0, 0, 0, 0, 0, 0, 0, 0, 0, 0, 0, 0, 0, 0,
  0, 0, 0, 0, 0, 0, 0, 0, 0, 0, 0, 0, 0, 0, 0, 0, 0, 0, 0, 0, 0, 0, 0, 0, 0, 0, 0, 0, 0, 0, 0,
  0, 0, 0, 0, 0, 0, 0, 0, 0, 0, 0, 0, 0, 0, 0, 0, 0, 0, 0, 0
  ]

/-- Non-terminator block (name `"a"`) whose magic field is entirely NUL. -/
def nulMagicBlock : List Nat :=
  [
  97, 0, 0, 0, 0, 0, 0, 0, 0, 0, 0, 0, 0, 0, 0, 0, 0, 0, 0, 0, 0, 0, 0, 0, 0, 0, 0, 0, 0, 0, 0,
  0, 0, 0, 0, 0, 0, 0, 0, 0, 0, 0, 0, 0, 0, 0, 0, 0, 0, 0, 0, 0, 0, 0, 0, 0, 0, 0, 0, 0, 0, 0,
  0, 0, 0, 0, 0, 0, 0, 0, 0, 0, 0, 0, 0, 0, 0, 0, 0, 0, 0, 0, 0, 0, 0, 0, 0, 0, 0, 0, 0, 0, 0,
  0, 0, 0, 0, 0, 0, 0, 0, 0, 0, 0, 0, 0, 0, 0, 0, 0, 0, 0, 0, 0, 0, 0, 0, 0, 0, 0, 0, 0, 0, 0,
  0, 0, 0, 0, 0, 0, 0, 0, 0, 0, 0, 0, 0, 0, 0, 0, 0, 0, 0, 0, 0, 0, 0, 0, 0, 0, 0, 0, 0, 0, 0,
  0, 0, 0, 0, 0, 0, 0, 0, 0, 0, 0, 0, 0, 0, 0, 0, 0, 0, 0, 0, 0, 0, 0, 0, 0, 0, 0, 0, 0, 0, 0,
  0, 0, 0, 0, 0, 0, 0, 0, 0, 0, 0, 0, 0, 0, 0, 0, 0, 0, 0, 0, 0, 0, 0, 0, 0, 0, 0, 0, 0, 0, 0,
  0, 0, 0, 0, 0, 0, 0, 0, 0, 0, 0, 0, 0, 0, 0, 0, 0, 0, 0, 0, 0, 0, 0, 0, 0, 0, 0, 0, 0, 0, 0,
  0, 0, 0, 0, 0, 0, 0, 0, 0, 0, 0, 0, 0, 0, 0, 0, 0, 0, 0, 0, 0, 0, 0, 0, 0, 0, 0, 0, 0, 0, 0,
  0, 0, 0, 0, 0, 0, 0, 0, 0, 0, 0, 0, 0, 0, 0, 0, 0, 0, 0, 0, 0, 0, 0, 0, 0, 0, 0, 0, 0, 0, 0,
  0, 0, 0, 0, 0, 0, 0, 0, 0, 0, 0, 0, 0, 0, 0, 0, 0, 0, 0, 0, 0, 0, 0, 0, 0, 0, 0, 0, 0, 0, 0,
  0, 0, 0, 0, 0, 0, 0, 0, 0, 0, 0, 0, 0, 0, 0, 0, 0, 0, 0, 0, 0, 0, 0, 0, 0, 0, 0, 0, 0, 0, 0,
  0, 0, 0, 0, 0, 0, 0, 0, 0, 0, 0, 0, 0, 0, 0, 0, 0, 0, 0, 0, 0, 0, 0, 0, 0, 0, 0, 0, 0, 0, 0,
  0, 0, 0, 0, 0, 0, 0, 0, 0, 0, 0, 0, 0, 0, 0, 0, 0, 0, 0, 0, 0, 0, 0, 0, 0, 0, 0, 0, 0, 0, 0,
  0, 0, 0, 0, 0, 0, 0, 0, 0, 0, 0, 0, 0, 0, 0, 0, 0, 0, 0, 0, 0, 0, 0, 0, 0, 0, 0, 0, 0, 0, 0,
  0, 0, 0, 0, 0, 0, 0, 0, 0, 0, 0, 0, 0, 0, 0, 0, 0, 0, 0, 0, 0, 0, 0, 0, 0, 0, 0, 0, 0, 0, 0,
  0, 0, 0, 0, 0, 0, 0, 0, 0, 0, 0, 0, 0, 0, 0, 0
  ]

/-- Non-terminator block with name `"a"` and magic starting with the byte of a lowercase x. -/
def badMagicBlock : List Nat :=
  [
  97, 0, 0, 0, 0, 0, 0, 0, 0, 0, 0, 0, 0, 0, 0, 0, 0, 0, 0, 0, 0, 0, 0, 0, 0, 0, 0, 0, 0, 0, 0,
  0, 0, 0, 0, 0, 0, 0, 0, 0, 0, 0, 0, 0, 0, 0, 0, 0, 0, 0, 0, 0, 0, 0, 0, 0, 0, 0, 0, 0, 0, 0,
  0, 0, 0, 0, 0, 0, 0, 0, 0, 0, 0, 0, 0, 0, 0, 0, 0, 0, 0, 0, 0, 0, 0, 0, 0, 0, 0, 0, 0, 0, 0,
  0, 0, 0, 0, 0, 0, 0, 0, 0, 0, 0, 0, 0, 0, 0, 0, 0, 0, 0, 0, 0, 0, 0, 0, 0, 0, 0, 0, 0, 0, 0,
  0, 0, 0, 0, 0, 0, 0, 0, 0, 0, 0, 0, 0, 0, 0, 0, 0, 0, 0, 0, 0, 0, 0, 0, 0, 0, 0, 0, 0, 0, 0,
  0, 0, 0, 0, 0, 0, 0, 0, 0, 0, 0, 0, 0, 0, 0, 0, 0, 0, 0, 0, 0, 0, 0, 0, 0, 0, 0, 0, 0, 0, 0,
  0, 0, 0, 0, 0, 0, 0, 0, 0, 0, 0, 0, 0, 0, 0, 0, 0, 0, 0, 0, 0, 0, 0, 0, 0, 0, 0, 0, 0, 0, 0,
  0, 0, 0, 0, 0, 0, 0, 0, 0, 0, 0, 0, 0, 0, 0, 0, 0, 0, 0, 0, 0, 0, 0, 0, 0, 0, 0, 0, 0, 0, 0,
  0, 0, 0, 0, 0, 0, 0, 0, 0, 120, 0, 0, 0, 0, 0, 0, 0, 0, 0, 0, 0, 0, 0, 0, 0, 0, 0, 0, 0, 0, 0,
  0, 0, 0, 0, 0, 0, 0, 0, 0, 0, 0, 0, 0, 0, 0, 0, 0, 0, 0, 0, 0, 0, 0, 0, 0, 0, 0, 0, 0, 0, 0,
  0, 0, 0, 0, 0, 0, 0, 0, 0, 0, 0, 0, 0, 0, 0, 0, 0, 0, 0, 0, 0, 0, 0, 0, 0, 0, 0, 0, 0, 0, 0,
  0, 0, 0, 0, 0, 0, 0, 0, 0, 0, 0, 0, 0, 0, 0, 0, 0, 0, 0, 0, 0, 0, 0, 0, 0, 0, 0, 0, 0, 0, 0,
  0, 0, 0, 0, 0, 0, 0, 0, 0, 0, 0, 0, 0, 0, 0, 0, 0, 0, 0, 0, 0, 0, 0, 0, 0, 0, 0, 0, 0, 0, 0,
  0, 0, 0, 0, 0, 0, 0, 0, 0, 0, 0, 0, 0, 0, 0, 0, 0, 0, 0, 0, 0, 0, 0, 0, 0, 0, 0, 0, 0, 0, 0,
  0, 0, 0, 0, 0, 0, 0, 0, 0, 0, 0, 0, 0, 0, 0, 0, 0, 0, 0, 0, 0, 0, 0, 0, 0, 0, 0, 0, 0, 0, 0,
  0, 0, 0, 0, 0, 0, 0, 0, 0, 0, 0, 0, 0, 0, 0, 0, 0, 0, 0, 0, 0, 0, 0, 0, 0, 0, 0, 0, 0, 0, 0,
  0, 0, 0, 0, 0, 0, 0, 0, 0, 0, 0, 0, 0, 0, 0, 0
  ]

/-- Symlink entry `a` pointing to `a`: name `"a"`, typeflag 50, linkname `"a"`. -/
def selfLinkBlock : List Nat :=
  [
  97, 0, 0, 0, 0, 0, 0, 0, 0, 0, 0, 0, 0, 0, 0, 0, 0, 0, 0, 0, 0, 0, 0, 0, 0, 0, 0, 0, 0, 0, 0,
  0, 0, 0, 0, 0, 0, 0, 0, 0, 0, 0, 0, 0, 0, 0, 0, 0, 0, 0, 0, 0, 0, 0, 0, 0, 0, 0, 0, 0, 0, 0,
  0, 0, 0, 0, 0, 0, 0, 0, 0, 0, 0, 0, 0, 0, 0, 0, 0, 0, 0, 0, 0, 0, 0, 0, 0, 0, 0, 0, 0, 0, 0,
  0, 0, 0, 0, 0, 0, 0, 0, 0, 0, 0, 0, 0, 0, 0, 0, 0, 0, 0, 0, 0, 0, 0, 0, 0, 0, 0, 0, 0, 0, 0,
  0, 0, 0, 0, 0, 0, 0, 0, 0, 0, 0, 0, 0, 0, 0, 0, 0, 0, 0, 0, 0, 0, 0, 0, 0, 0, 0, 0, 0, 0, 0,
  0, 50, 97, 0, 0, 0, 0, 0, 0, 0, 0, 0, 0, 0, 0, 0, 0, 0, 0, 0, 0, 0, 0, 0, 0, 0, 0, 0, 0, 0, 0,
  0, 0, 0, 0, 0, 0, 0, 0, 0, 0, 0, 0, 0, 0, 0, 0, 0, 0, 0, 0, 0, 0, 0, 0, 0, 0, 0, 0, 0, 0, 0,
  0, 0, 0, 0, 0, 0, 0, 0, 0, 0, 0, 0, 0, 0, 0, 0, 0, 0, 0, 0, 0, 0, 0, 0, 0, 0, 0, 0, 0, 0, 0,
  0, 0, 0, 0, 0, 0, 0, 0, 0, 0, 0, 0, 0, 0, 0, 0, 0, 0, 0, 0, 0, 0, 0, 0, 0, 0, 0, 0, 0, 0, 0,
  0, 0, 0, 0, 0, 0, 0, 0, 0, 0, 0, 0, 0, 0, 0, 0, 0, 0, 0, 0, 0, 0, 0, 0, 0, 0, 0, 0, 0, 0, 0,
  0, 0, 0, 0, 0, 0, 0, 0, 0, 0, 0, 0, 0, 0, 0, 0, 0, 0, 0, 0, 0, 0, 0, 0, 0, 0, 0, 0, 0, 0, 0,
  0, 0, 0, 0, 0, 0, 0, 0, 0, 0, 0, 0, 0, 0, 0, 0, 0, 0, 0, 0, 0, 0, 0, 0, 0, 0, 0, 0, 0, 0, 0,
  0, 0, 0, 0, 0, 0, 0, 0, 0, 0, 0, 0, 0, 0, 0, 0, 0, 0, 0, 0, 0, 0, 0, 0, 0, 0, 0, 0, 0, 0, 0,
  0, 0, 0, 0, 0, 0, 0, 0, 0, 0, 0, 0, 0, 0, 0, 0, 0, 0, 0, 0, 0, 0, 0, 0, 0, 0, 0, 0, 0, 0, 0,
  0, 0, 0, 0, 0, 0, 0, 0, 0, 0, 0, 0, 0, 0, 0, 0, 0, 0, 0, 0, 0, 0, 0, 0, 0, 0, 0, 0, 0, 0, 0,
  0, 0, 0, 0, 0, 0, 0, 0, 0, 0, 0, 0, 0, 0, 0, 0, 0, 0, 0, 0, 0, 0, 0, 0, 0, 0, 0, 0, 0, 0, 0,
  0, 0, 0, 0, 0, 0, 0, 0, 0, 0, 0, 0, 0, 0, 0, 0
  ]

/-- Entry stored with the 155-byte field at offset 345 holding `"p"` and name field `"x"`. -/
def prefixedBlock : List Nat :=
  [
  120, 0, 0, 0, 0, 0, 0, 0, 0, 0, 0, 0, 0, 0, 0, 0, 0, 0, 0, 0, 0, 0, 0, 0, 0, 0, 0, 0, 0, 0, 0,
  0, 0, 0, 0, 0, 0, 0, 0, 0, 0, 0, 0, 0, 0, 0, 0, 0, 0, 0, 0, 0, 0, 0, 0, 0, 0, 0, 0, 0, 0, 0,
  0, 0, 0, 0, 0, 0, 0, 0, 0, 0, 0, 0, 0, 0, 0, 0, 0, 0, 0, 0, 0, 0, 0, 0, 0, 0, 0, 0, 0, 0, 0,
  0, 0, 0, 0, 0, 0, 0, 0, 0, 0, 0, 0, 0, 0, 0, 0, 0, 0, 0, 0, 0, 0, 0, 0, 0, 0, 0, 0, 0, 0, 0,
  0, 0, 0, 0, 0, 0, 0, 0, 0, 0, 0, 0, 0, 0, 0, 0, 0, 0, 0, 0, 0, 0, 0, 0, 0, 0, 0, 0, 0, 0, 0,
  0, 48, 0, 0, 0, 0, 0, 0, 0, 0, 0, 0, 0, 0, 0, 0, 0, 0, 0, 0, 0, 0, 0, 0, 0, 0, 0, 0, 0, 0, 0,
  0, 0, 0, 0, 0, 0, 0, 0, 0, 0, 0, 0, 0, 0, 0, 0, 0, 0, 0, 0, 0, 0, 0, 0, 0, 0, 0, 0, 0, 0, 0,
  0, 0, 0, 0, 0, 0, 0, 0, 0, 0, 0, 0, 0, 0, 0, 0, 0, 0, 0, 0, 0, 0, 0, 0, 0, 0, 0, 0, 0, 0, 0,
  0, 0, 0, 0, 0, 0, 0, 0, 0, 0, 0, 0, 0, 0, 0, 0, 0, 0, 0, 0, 0, 0, 0, 0, 0, 0, 0, 0, 0, 0, 0,
  0, 0, 0, 0, 0, 0, 0, 0, 0, 0, 0, 0, 0, 0, 0, 0, 0, 0, 0, 0, 0, 0, 0, 0, 0, 0, 0, 0, 0, 0, 0,
  0, 0, 0, 0, 0, 0, 0, 0, 0, 0, 0, 0, 0, 0, 0, 0, 0, 0, 0, 0, 0, 0, 0, 0, 0, 0, 0, 0, 0, 0, 0,
  0, 0, 0, 0, 112, 0, 0, 0, 0, 0, 0, 0, 0, 0, 0, 0, 0, 0, 0, 0, 0, 0, 0, 0, 0, 0, 0, 0, 0, 0, 0,
  0, 0, 0, 0, 0, 0, 0, 0, 0, 0, 0, 0, 0, 0, 0, 0, 0, 0, 0, 0, 0, 0, 0, 0, 0, 0, 0, 0, 0, 0, 0,
  0, 0, 0, 0, 0, 0, 0, 0, 0, 0, 0, 0, 0, 0, 0, 0, 0, 0, 0, 0, 0, 0, 0, 0, 0, 0, 0, 0, 0, 0, 0,
  0, 0, 0, 0, 0, 0, 0, 0, 0, 0, 0, 0, 0, 0, 0, 0, 0, 0, 0, 0, 0, 0, 0, 0, 0, 0, 0, 0, 0, 0, 0,
  0, 0, 0, 0, 0, 0, 0, 0, 0, 0, 0, 0, 0, 0, 0, 0, 0, 0, 0, 0, 0, 0, 0, 0, 0, 0, 0, 0, 0, 0, 0,
  0, 0, 0, 0, 0, 0, 0, 0, 0, 0, 0, 0, 0, 0, 0, 0
  ]

/-- Regular-file entry `"a"` of size 2. -/
def fileHdrA : List Nat :=
  [
  97, 0, 0, 0, 0, 0, 0, 0, 0, 0, 0, 0, 0, 0, 0, 0, 0, 0, 0, 0, 0, 0, 0, 0, 0, 0, 0, 0, 0, 0, 0,
  0, 0, 0, 0, 0, 0, 0, 0, 0, 0, 0, 0, 0, 0, 0, 0, 0, 0, 0, 0, 0, 0, 0, 0, 0, 0, 0, 0, 0, 0, 0,
  0, 0, 0, 0, 0, 0, 0, 0, 0, 0, 0, 0, 0, 0, 0, 0, 0, 0, 0, 0, 0, 0, 0, 0, 0, 0, 0, 0, 0, 0, 0,
  0, 0, 0, 0, 0, 0, 0, 0, 0, 0, 0, 0, 0, 0, 0, 0, 0, 0, 0, 0, 0, 0, 0, 0, 0, 0, 0, 0, 0, 0, 0,
  50, 0, 0, 0, 0, 0, 0, 0, 0, 0, 0, 0, 0, 0, 0, 0, 0, 0, 0, 0, 0, 0, 0, 0, 0, 0, 0, 0, 0, 0, 0,
  0, 48, 0, 0, 0, 0, 0, 0, 0, 0, 0, 0, 0, 0, 0, 0, 0, 0, 0, 0, 0, 0, 0, 0, 0, 0, 0, 0, 0, 0, 0,
  0, 0, 0, 0, 0, 0, 0, 0, 0, 0, 0, 0, 0, 0, 0, 0, 0, 0, 0, 0, 0, 0, 0, 0, 0, 0, 0, 0, 0, 0, 0,
  0, 0, 0, 0, 0, 0, 0, 0, 0, 0, 0, 0, 0, 0, 0, 0, 0, 0, 0, 0, 0, 0, 0, 0, 0, 0, 0, 0, 0, 0, 0,
  0, 0, 0, 0, 0, 0, 0, 0, 0, 0, 0, 0, 0, 0, 0, 0, 0, 0, 0, 0, 0, 0, 0, 0, 0, 0, 0, 0, 0, 0, 0,
  0, 0, 0, 0, 0, 0, 0, 0, 0, 0, 0, 0, 0, 0, 0, 0, 0, 0, 0, 0, 0, 0, 0, 0, 0, 0, 0, 0, 0, 0, 0,
  0, 0, 0, 0, 0, 0, 0, 0, 0, 0, 0, 0, 0, 0, 0, 0, 0, 0, 0, 0, 0, 0, 0, 0, 0, 0, 0, 0, 0, 0, 0,
  0, 0, 0, 0, 0, 0, 0, 0, 0, 0, 0, 0, 0, 0, 0, 0, 0, 0, 0, 0, 0, 0, 0, 0, 0, 0, 0, 0, 0, 0, 0,
  0, 0, 0, 0, 0, 0, 0, 0, 0, 0, 0, 0, 0, 0, 0, 0, 0, 0, 0, 0, 0, 0, 0, 0, 0, 0, 0, 0, 0, 0, 0,
  0, 0, 0, 0, 0, 0, 0, 0, 0, 0, 0, 0, 0, 0, 0, 0, 0, 0, 0, 0, 0, 0, 0, 0, 0, 0, 0, 0, 0, 0, 0,
  0, 0, 0, 0, 0, 0, 0, 0, 0, 0, 0, 0, 0, 0, 0, 0, 0, 0, 0, 0, 0, 0, 0, 0, 0, 0, 0, 0, 0, 0, 0,
  0, 0, 0, 0, 0, 0, 0, 0, 0, 0, 0, 0, 0, 0, 0, 0, 0, 0, 0, 0, 0, 0, 0, 0, 0, 0, 0, 0, 0, 0, 0,
  0, 0, 0, 0, 0, 0, 0, 0, 0, 0, 0, 0, 0, 0, 0, 0
  ]

/-- Zero-size regular-file entry `"a"`. -/
def emptyFileBlock : List Nat :=
  [
  97, 0, 0, 0, 0, 0, 0, 0, 0, 0, 0, 0, 0, 0, 0, 0, 0, 0, 0, 0, 0, 0, 0, 0, 0, 0, 0, 0, 0, 0, 0,
  0, 0, 0, 0, 0, 0, 0, 0, 0, 0, 0, 0, 0, 0, 0, 0, 0, 0, 0, 0, 0, 0, 0, 0, 0, 0, 0, 0, 0, 0, 0,
  0, 0, 0, 0, 0, 0, 0, 0, 0, 0, 0, 0, 0, 0, 0, 0, 0, 0, 0, 0, 0, 0, 0, 0, 0, 0, 0, 0, 0, 0, 0,
  0, 0, 0, 0, 0, 0, 0, 0, 0, 0, 0, 0, 0, 0, 0, 0, 0, 0, 0, 0, 0, 0, 0, 0, 0, 0, 0, 0, 0, 0, 0,
  0, 0, 0, 0, 0, 0, 0, 0, 0, 0, 0, 0, 0, 0, 0, 0, 0, 0, 0, 0, 0, 0, 0, 0, 0, 0, 0, 0, 0, 0, 0,
  0, 48, 0, 0, 0, 0, 0, 0, 0, 0, 0, 0, 0, 0, 0, 0, 0, 0, 0, 0, 0, 0, 0, 0, 0, 0, 0, 0, 0, 0, 0,
  0, 0, 0, 0, 0, 0, 0, 0, 0, 0, 0, 0, 0, 0, 0, 0, 0, 0, 0, 0, 0, 0, 0, 0, 0, 0, 0, 0, 0, 0, 0,
  0, 0, 0, 0, 0, 0, 0, 0, 0, 0, 0, 0, 0, 0, 0, 0, 0, 0, 0, 0, 0, 0, 0, 0, 0, 0, 0, 0, 0, 0, 0,
  0, 0, 0, 0, 0, 0, 0, 0, 0, 0, 0, 0, 0, 0, 0, 0, 0, 0, 0, 0, 0, 0, 0, 0, 0, 0, 0, 0, 0, 0, 0,
  0, 0, 0, 0, 0, 0, 0, 0, 0, 0, 0, 0, 0, 0, 0, 0, 0, 0, 0, 0, 0, 0, 0, 0, 0, 0, 0, 0, 0, 0, 0,
  0, 0, 0, 0, 0, 0, 0, 0, 0, 0, 0, 0, 0, 0, 0, 0, 0, 0, 0, 0, 0, 0, 0, 0, 0, 0, 0, 0, 0, 0, 0,
  0, 0, 0, 0, 0, 0, 0, 0, 0, 0, 0, 0, 0, 0, 0, 0, 0, 0, 0, 0, 0, 0, 0, 0, 0, 0, 0, 0, 0, 0, 0,
  0, 0, 0, 0, 0, 0, 0, 0, 0, 0, 0, 0, 0, 0, 0, 0, 0, 0, 0, 0, 0, 0, 0, 0, 0, 0, 0, 0, 0, 0, 0,
  0, 0, 0, 0, 0, 0, 0, 0, 0, 0, 0, 0, 0, 0, 0, 0, 0, 0, 0, 0, 0, 0, 0, 0, 0, 0, 0, 0, 0, 0, 0,
  0, 0, 0, 0, 0, 0, 0, 0, 0, 0, 0, 0, 0, 0, 0, 0, 0, 0, 0, 0, 0, 0, 0, 0, 0, 0, 0, 0, 0, 0, 0,
  0, 0, 0, 0, 0, 0, 0, 0, 0, 0, 0, 0, 0, 0, 0, 0, 0, 0, 0, 0, 0, 0, 0, 0, 0, 0, 0, 0, 0, 0, 0,
  0, 0, 0, 0, 0, 0, 0, 0, 0, 0, 0, 0, 0, 0, 0, 0
  ]

/-- Symlink entry `a` pointing to `b`. -/
def linkABlock : List Nat :=
  [
  97, 0, 0, 0, 0, 0, 0, 0, 0, 0, 0, 0, 0, 0, 0, 0, 0, 0, 0, 0, 0, 0, 0, 0, 0, 0, 0, 0, 0, 0, 0,
  0, 0, 0, 0, 0, 0, 0, 0, 0, 0, 0, 0, 0, 0, 0, 0, 0, 0, 0, 0, 0, 0, 0, 0, 0, 0, 0, 0, 0, 0, 0,
  0, 0, 0, 0, 0, 0, 0, 0, 0, 0, 0, 0, 0, 0, 0, 0, 0, 0, 0, 0, 0, 0, 0, 0, 0, 0, 0, 0, 0, 0, 0,
  0, 0, 0, 0, 0, 0, 0, 0, 0, 0, 0, 0, 0, 0, 0, 0, 0, 0, 0, 0, 0, 0, 0, 0, 0, 0, 0, 0, 0, 0, 0,
  0, 0, 0, 0, 0, 0, 0, 0, 0, 0, 0, 0, 0, 0, 0, 0, 0, 0, 0, 0, 0, 0, 0, 0, 0, 0, 0, 0, 0, 0, 0,
  0, 50, 98, 0, 0, 0, 0, 0, 0, 0, 0, 0, 0, 0, 0, 0, 0, 0, 0, 0, 0, 0, 0, 0, 0, 0, 0, 0, 0, 0, 0,
  0, 0, 0, 0, 0, 0, 0, 0, 0, 0, 0, 0, 0, 0, 0, 0, 0, 0, 0, 0, 0, 0, 0, 0, 0, 0, 0, 0, 0, 0, 0,
  0, 0, 0, 0, 0, 0, 0, 0, 0, 0, 0, 0, 0, 0, 0, 0, 0, 0, 0, 0, 0, 0, 0, 0, 0, 0, 0, 0, 0, 0, 0,
  0, 0, 0, 0, 0, 0, 0, 0, 0, 0, 0, 0, 0, 0, 0, 0, 0, 0, 0, 0, 0, 0, 0, 0, 0, 0, 0, 0, 0, 0, 0,
  0, 0, 0, 0, 0, 0, 0, 0, 0, 0, 0, 0, 0, 0, 0, 0, 0, 0, 0, 0, 0, 0, 0, 0, 0, 0, 0, 0, 0, 0, 0,
  0, 0, 0, 0, 0, 0, 0, 0, 0, 0, 0, 0, 0, 0, 0, 0, 0, 0, 0, 0, 0, 0, 0, 0, 0, 0, 0, 0, 0, 0, 0,
  0, 0, 0, 0, 0, 0, 0, 0, 0, 0, 0, 0, 0, 0, 0, 0, 0, 0, 0, 0, 0, 0, 0, 0, 0, 0, 0, 0, 0, 0, 0,
  0, 0, 0, 0, 0, 0, 0, 0, 0, 0, 0, 0, 0, 0, 0, 0, 0, 0, 0, 0, 0, 0, 0, 0, 0, 0, 0, 0, 0, 0, 0,
  0, 0, 0, 0, 0, 0, 0, 0, 0, 0, 0, 0, 0, 0, 0, 0, 0, 0, 0, 0, 0, 0, 0, 0, 0, 0, 0, 0, 0, 0, 0,
  0, 0, 0, 0, 0, 0, 0, 0, 0, 0, 0, 0, 0, 0, 0, 0, 0, 0, 0, 0, 0, 0, 0, 0, 0, 0, 0, 0, 0, 0, 0,
  0, 0, 0, 0, 0, 0, 0, 0, 0, 0, 0, 0, 0, 0, 0, 0, 0, 0, 0, 0, 0, 0, 0, 0, 0, 0, 0, 0, 0, 0, 0,
  0, 0, 0, 0, 0, 0, 0, 0, 0, 0, 0, 0, 0, 0, 0, 0
  ]

/-- Symlink entry `b` pointing to `c`. -/
def linkBBlock : List Nat :=
  [
  98, 0, 0, 0, 0, 0, 0, 0, 0, 0, 0, 0, 0, 0, 0, 0, 0, 0, 0, 0, 0, 0, 0, 0, 0, 0, 0, 0, 0, 0, 0,
  0, 0, 0, 0, 0, 0, 0, 0, 0, 0, 0, 0, 0, 0, 0, 0, 0, 0, 0, 0, 0, 0, 0, 0, 0, 0, 0, 0, 0, 0, 0,
  0, 0, 0, 0, 0, 0, 0, 0, 0, 0, 0, 0, 0, 0, 0, 0, 0, 0, 0, 0, 0, 0, 0, 0, 0, 0, 0, 0, 0, 0, 0,
  0, 0, 0, 0, 0, 0, 0, 0, 0, 0, 0, 0, 0, 0, 0, 0, 0, 0, 0, 0, 0, 0, 0, 0, 0, 0, 0, 0, 0, 0, 0,
  0, 0, 0, 0, 0, 0, 0, 0, 0, 0, 0, 0, 0, 0, 0, 0, 0, 0, 0, 0, 0, 0, 0, 0, 0, 0, 0, 0, 0, 0, 0,
  0, 50, 99, 0, 0, 0, 0, 0, 0, 0, 0, 0, 0, 0, 0, 0, 0, 0, 0, 0, 0, 0, 0, 0, 0, 0, 0, 0, 0, 0, 0,
  0, 0, 0, 0, 0, 0, 0, 0, 0, 0, 0, 0, 0, 0, 0, 0, 0, 0, 0, 0, 0, 0, 0, 0, 0, 0, 0, 0, 0, 0, 0,
  0, 0, 0, 0, 0, 0, 0, 0, 0, 0, 0, 0, 0, 0, 0, 0, 0, 0, 0, 0, 0, 0, 0, 0, 0, 0, 0, 0, 0, 0, 0,
  0, 0, 0, 0, 0, 0, 0, 0, 0, 0, 0, 0, 0, 0, 0, 0, 0, 0, 0, 0, 0, 0, 0, 0, 0, 0, 0, 0, 0, 0, 0,
  0, 0, 0, 0, 0, 0, 0, 0, 0, 0, 0, 0, 0, 0, 0, 0, 0, 0, 0, 0, 0, 0, 0, 0, 0, 0, 0, 0, 0, 0, 0,
  0, 0, 0, 0, 0, 0, 0, 0, 0, 0, 0, 0, 0, 0, 0, 0, 0, 0, 0, 0, 0, 0, 0, 0, 0, 0, 0, 0, 0, 0, 0,
  0, 0, 0, 0, 0, 0, 0, 0, 0, 0, 0, 0, 0, 0, 0, 0, 0, 0, 0, 0, 0, 0, 0, 0, 0, 0, 0, 0, 0, 0, 0,
  0, 0, 0, 0, 0, 0, 0, 0, 0, 0, 0, 0, 0, 0, 0, 0, 0, 0, 0, 0, 0, 0, 0, 0, 0, 0, 0, 0, 0, 0, 0,
  0, 0, 0, 0, 0, 0, 0, 0, 0, 0, 0, 0, 0, 0, 0, 0, 0, 0, 0, 0, 0, 0, 0, 0, 0, 0, 0, 0, 0, 0, 0,
  0, 0, 0, 0, 0, 0, 0, 0, 0, 0, 0, 0, 0, 0, 0, 0, 0, 0, 0, 0, 0, 0, 0, 0, 0, 0, 0, 0, 0, 0, 0,
  0, 0, 0, 0, 0, 0, 0, 0, 0, 0, 0, 0, 0, 0, 0, 0, 0, 0, 0, 0, 0, 0, 0, 0, 0, 0, 0, 0, 0, 0, 0,
  0, 0, 0, 0, 0, 0, 0, 0, 0, 0, 0, 0, 0, 0, 0, 0
  ]

/-- Regular-file entry `"c"` of size 0. -/
def fileCBlock : List Nat :=
  [
  99, 0, 0, 0, 0, 0, 0, 0, 0, 0, 0, 0, 0, 0, 0, 0, 0, 0, 0, 0, 0, 0, 0, 0, 0, 0, 0, 0, 0, 0, 0,
  0, 0, 0, 0, 0, 0, 0, 0, 0, 0, 0, 0, 0, 0, 0, 0, 0, 0, 0, 0, 0, 0, 0, 0, 0, 0, 0, 0, 0, 0, 0,
  0, 0, 0, 0, 0, 0, 0, 0, 0, 0, 0, 0, 0, 0, 0, 0, 0, 0, 0, 0, 0, 0, 0, 0, 0, 0, 0, 0, 0, 0, 0,
  0, 0, 0, 0, 0, 0, 0, 0, 0, 0, 0, 0, 0, 0, 0, 0, 0, 0, 0, 0, 0, 0, 0, 0, 0, 0, 0, 0, 0, 0, 0,
  0, 0, 0, 0, 0, 0, 0, 0, 0, 0, 0, 0, 0, 0, 0, 0, 0, 0, 0, 0, 0, 0, 0, 0, 0, 0, 0, 0, 0, 0, 0,
  0, 48, 0, 0, 0, 0, 0, 0, 0, 0, 0, 0, 0, 0, 0, 0, 0, 0, 0, 0, 0, 0, 0, 0, 0, 0, 0, 0, 0, 0, 0,
  0, 0, 0, 0, 0, 0, 0, 0, 0, 0, 0, 0, 0, 0, 0, 0, 0, 0, 0, 0, 0, 0, 0, 0, 0, 0, 0, 0, 0, 0, 0,
  0, 0, 0, 0, 0, 0, 0, 0, 0, 0, 0, 0, 0, 0, 0, 0, 0, 0, 0, 0, 0, 0, 0, 0, 0, 0, 0, 0, 0, 0, 0,
  0, 0, 0, 0, 0, 0, 0, 0, 0, 0, 0, 0, 0, 0, 0, 0, 0, 0, 0, 0, 0, 0, 0, 0, 0, 0, 0, 0, 0, 0, 0,
  0, 0, 0, 0, 0, 0, 0, 0, 0, 0, 0, 0, 0, 0, 0, 0, 0, 0, 0, 0, 0, 0, 0, 0, 0, 0, 0, 0, 0, 0, 0,
  0, 0, 0, 0, 0, 0, 0, 0, 0, 0, 0, 0, 0, 0, 0, 0, 0, 0, 0, 0, 0, 0, 0, 0, 0, 0, 0, 0, 0, 0, 0,
  0, 0, 0, 0, 0, 0, 0, 0, 0, 0, 0, 0, 0, 0, 0, 0, 0, 0, 0, 0, 0, 0, 0, 0, 0, 0, 0, 0, 0, 0, 0,
  0, 0, 0, 0, 0, 0, 0, 0, 0, 0, 0, 0, 0, 0, 0, 0, 0, 0, 0, 0, 0, 0, 0, 0, 0, 0, 0, 0, 0, 0, 0,
  0, 0, 0, 0, 0, 0, 0, 0, 0, 0, 0, 0, 0, 0, 0, 0, 0, 0, 0, 0, 0, 0, 0, 0, 0, 0, 0, 0, 0, 0, 0,
  0, 0, 0, 0, 0, 0, 0, 0, 0, 0, 0, 0, 0, 0, 0, 0, 0, 0, 0, 0, 0, 0, 0, 0, 0, 0, 0, 0, 0, 0, 0,
  0, 0, 0, 0, 0, 0, 0, 0, 0, 0, 0, 0, 0, 0, 0, 0, 0, 0, 0, 0, 0, 0, 0, 0, 0, 0, 0, 0, 0, 0, 0,
  0, 0, 0, 0, 0, 0, 0, 0, 0, 0, 0, 0, 0, 0, 0, 0
  ]

/-- Regular-file entry `"f"` of size 0. -/
def fileFBlock : List Nat :=
  [
  102, 0, 0, 0, 0, 0, 0, 0, 0, 0, 0, 0, 0, 0, 0, 0, 0, 0, 0, 0, 0, 0, 0, 0, 0, 0, 0, 0, 0, 0, 0,
  0, 0, 0, 0, 0, 0, 0, 0, 0, 0, 0, 0, 0, 0, 0, 0, 0, 0, 0, 0, 0, 0, 0, 0, 0, 0, 0, 0, 0, 0, 0,
  0, 0, 0, 0, 0, 0, 0, 0, 0, 0, 0, 0, 0, 0, 0, 0, 0, 0, 0, 0, 0, 0, 0, 0, 0, 0, 0, 0, 0, 0, 0,
  0, 0, 0, 0, 0, 0, 0, 0, 0, 0, 0, 0, 0, 0, 0, 0, 0, 0, 0, 0, 0, 0, 0, 0, 0, 0, 0, 0, 0, 0, 0,
  0, 0, 0, 0, 0, 0, 0, 0, 0, 0, 0, 0, 0, 0, 0, 0, 0, 0, 0, 0, 0, 0, 0, 0, 0, 0, 0, 0, 0, 0, 0,
  0, 48, 0, 0, 0, 0, 0, 0, 0, 0, 0, 0, 0, 0, 0, 0, 0, 0, 0, 0, 0, 0, 0, 0, 0, 0, 0, 0, 0, 0, 0,
  0, 0, 0, 0, 0, 0, 0, 0, 0, 0, 0, 0, 0, 0, 0, 0, 0, 0, 0, 0, 0, 0, 0, 0, 0, 0, 0, 0, 0, 0, 0,
  0, 0, 0, 0, 0, 0, 0, 0, 0, 0, 0, 0, 0, 0, 0, 0, 0, 0, 0, 0, 0, 0, 0, 0, 0, 0, 0, 0, 0, 0, 0,
  0, 0, 0, 0, 0, 0, 0, 0, 0, 0, 0, 0, 0, 0, 0, 0, 0, 0, 0, 0, 0, 0, 0, 0, 0, 0, 0, 0, 0, 0, 0,
  0, 0, 0, 0, 0, 0, 0, 0, 0, 0, 0, 0, 0, 0, 0, 0, 0, 0, 0, 0, 0, 0, 0, 0, 0, 0, 0, 0, 0, 0, 0,
  0, 0, 0, 0, 0, 0, 0, 0, 0, 0, 0, 0, 0, 0, 0, 0, 0, 0, 0, 0, 0, 0, 0, 0, 0, 0, 0, 0, 0, 0, 0,
  0, 0, 0, 0, 0, 0, 0, 0, 0, 0, 0, 0, 0, 0, 0, 0, 0, 0, 0, 0, 0, 0, 0, 0, 0, 0, 0, 0, 0, 0, 0,
  0, 0, 0, 0, 0, 0, 0, 0, 0, 0, 0, 0, 0, 0, 0, 0, 0, 0, 0, 0, 0, 0, 0, 0, 0, 0, 0, 0, 0, 0, 0,
  0, 0, 0, 0, 0, 0, 0, 0, 0, 0, 0, 0, 0, 0, 0, 0, 0, 0, 0, 0, 0, 0, 0, 0, 0, 0, 0, 0, 0, 0, 0,
  0, 0, 0, 0, 0, 0, 0, 0, 0, 0, 0, 0, 0, 0, 0, 0, 0, 0, 0, 0, 0, 0, 0, 0, 0, 0, 0, 0, 0, 0, 0,
  0, 0, 0, 0, 0, 0, 0, 0, 0, 0, 0, 0, 0, 0, 0, 0, 0, 0, 0, 0, 0, 0, 0, 0, 0, 0, 0, 0, 0, 0, 0,
  0, 0, 0, 0, 0, 0, 0, 0, 0, 0, 0, 0, 0, 0, 0, 0
  ]

/-- Directory entry `"dir/"`. -/
def dirHdr : List Nat :=
  [
  100, 105, 114, 47, 0, 0, 0, 0, 0, 0, 0, 0, 0, 0, 0, 0, 0, 0, 0, 0, 0, 0, 0, 0, 0, 0, 0, 0, 0,
  0, 0, 0, 0, 0, 0, 0, 0, 0, 0, 0, 0, 0, 0, 0, 0, 0, 0, 0, 0, 0, 0, 0, 0, 0, 0, 0, 0, 0, 0, 0,
  0, 0, 0, 0, 0, 0, 0, 0, 0, 0, 0, 0, 0, 0, 0, 0, 0, 0, 0, 0, 0, 0, 0, 0, 0, 0, 0, 0, 0, 0, 0,
  0, 0, 0, 0, 0, 0, 0, 0, 0, 0, 0, 0, 0, 0, 0, 0, 0, 0, 0, 0, 0, 0, 0, 0, 0, 0, 0, 0, 0, 0, 0,
  0, 0, 0, 0, 0, 0, 0, 0, 0, 0, 0, 0, 0, 0, 0, 0, 0, 0, 0, 0, 0, 0, 0, 0, 0, 0, 0, 0, 0, 0, 0,
  0, 0, 0, 53, 0, 0, 0, 0, 0, 0, 0, 0, 0, 0, 0, 0, 0, 0, 0, 0, 0, 0, 0, 0, 0, 0, 0, 0, 0, 0, 0,
  0, 0, 0, 0, 0, 0, 0, 0, 0, 0, 0, 0, 0, 0, 0, 0, 0, 0, 0, 0, 0, 0, 0, 0, 0, 0, 0, 0, 0, 0, 0,
  0, 0, 0, 0, 0, 0, 0, 0, 0, 0, 0, 0, 0, 0, 0, 0, 0, 0, 0, 0, 0, 0, 0, 0, 0, 0, 0, 0, 0, 0, 0,
  0, 0, 0, 0, 0, 0, 0, 0, 0, 0, 0, 0, 0, 0, 0, 0, 0, 0, 0, 0, 0, 0, 0, 0, 0, 0, 0, 0, 0, 0, 0,
  0, 0, 0, 0, 0, 0, 0, 0, 0, 0, 0, 0, 0, 0, 0, 0, 0, 0, 0, 0, 0, 0, 0, 0, 0, 0, 0, 0, 0, 0, 0,
  0, 0, 0, 0, 0, 0, 0, 0, 0, 0, 0, 0, 0, 0, 0, 0, 0, 0, 0, 0, 0, 0, 0, 0, 0, 0, 0, 0, 0, 0, 0,
  0, 0, 0, 0, 0, 0, 0, 0, 0, 0, 0, 0, 0, 0, 0, 0, 0, 0, 0, 0, 0, 0, 0, 0, 0, 0, 0, 0, 0, 0, 0,
  0, 0, 0, 0, 0, 0, 0, 0, 0, 0, 0, 0, 0, 0, 0, 0, 0, 0, 0, 0, 0, 0, 0, 0, 0, 0, 0, 0, 0, 0, 0,
  0, 0, 0, 0, 0, 0, 0, 0, 0, 0, 0, 0, 0, 0, 0, 0, 0, 0, 0, 0, 0, 0, 0, 0, 0, 0, 0, 0, 0, 0, 0,
  0, 0, 0, 0, 0, 0, 0, 0, 0, 0, 0, 0, 0, 0, 0, 0, 0, 0, 0, 0, 0, 0, 0, 0, 0, 0, 0, 0, 0, 0, 0,
  0, 0, 0, 0, 0, 0, 0, 0, 0, 0, 0, 0, 0, 0, 0, 0, 0, 0, 0, 0, 0, 0, 0, 0, 0, 0, 0, 0, 0, 0, 0,
  0, 0, 0, 0, 0, 0, 0, 0, 0, 0, 0, 0, 0, 0, 0, 0, 0, 0
  ]

/-- Regular-file entry `"dir/a"`. -/
def dirAHdr : List Nat :=
  [
  100, 105, 114, 47, 97, 0, 0, 0, 0, 0, 0, 0, 0, 0, 0, 0, 0, 0, 0, 0, 0, 0, 0, 0, 0, 0, 0, 0, 0,
  0, 0, 0, 0, 0, 0, 0, 0, 0, 0, 0, 0, 0, 0, 0, 0, 0, 0, 0, 0, 0, 0, 0, 0, 0, 0, 0, 0, 0, 0, 0,
  0, 0, 0, 0, 0, 0, 0, 0, 0, 0, 0, 0, 0, 0, 0, 0, 0, 0, 0, 0, 0, 0, 0, 0, 0, 0, 0, 0, 0, 0, 0,
  0, 0, 0, 0, 0, 0, 0, 0, 0, 0, 0, 0, 0, 0, 0, 0, 0, 0, 0, 0, 0, 0, 0, 0, 0, 0, 0, 0, 0, 0, 0,
  0, 0, 0, 0, 0, 0, 0, 0, 0, 0, 0, 0, 0, 0, 0, 0, 0, 0, 0, 0, 0, 0, 0, 0, 0, 0, 0, 0, 0, 0, 0,
  0, 0, 0, 48, 0, 0, 0, 0, 0, 0, 0, 0, 0, 0, 0, 0, 0, 0, 0, 0, 0, 0, 0, 0, 0, 0, 0, 0, 0, 0, 0,
  0, 0, 0, 0, 0, 0, 0, 0, 0, 0, 0, 0, 0, 0, 0, 0, 0, 0, 0, 0, 0, 0, 0, 0, 0, 0, 0, 0, 0, 0, 0,
  0, 0, 0, 0, 0, 0, 0, 0, 0, 0, 0, 0, 0, 0, 0, 0, 0, 0, 0, 0, 0, 0, 0, 0, 0, 0, 0, 0, 0, 0, 0,
  0, 0, 0, 0, 0, 0, 0, 0, 0, 0, 0, 0, 0, 0, 0, 0, 0, 0, 0, 0, 0, 0, 0, 0, 0, 0, 0, 0, 0, 0, 0,
  0, 0, 0, 0, 0, 0, 0, 0, 0, 0, 0, 0, 0, 0, 0, 0, 0, 0, 0, 0, 0, 0, 0, 0, 0, 0, 0, 0, 0, 0, 0,
  0, 0, 0, 0, 0, 0, 0, 0, 0, 0, 0, 0, 0, 0, 0, 0, 0, 0, 0, 0, 0, 0, 0, 0, 0, 0, 0, 0, 0, 0, 0,
  0, 0, 0, 0, 0, 0, 0, 0, 0, 0, 0, 0, 0, 0, 0, 0, 0, 0, 0, 0, 0, 0, 0, 0, 0, 0, 0, 0, 0, 0, 0,
  0, 0, 0, 0, 0, 0, 0, 0, 0, 0, 0, 0, 0, 0, 0, 0, 0, 0, 0, 0, 0, 0, 0, 0, 0, 0, 0, 0, 0, 0, 0,
  0, 0, 0, 0, 0, 0, 0, 0, 0, 0, 0, 0, 0, 0, 0, 0, 0, 0, 0, 0, 0, 0, 0, 0, 0, 0, 0, 0, 0, 0, 0,
  0, 0, 0, 0, 0, 0, 0, 0, 0, 0, 0, 0, 0, 0, 0, 0, 0, 0, 0, 0, 0, 0, 0, 0, 0, 0, 0, 0, 0, 0, 0,
  0, 0, 0, 0, 0, 0, 0, 0, 0, 0, 0, 0, 0, 0, 0, 0, 0, 0, 0, 0, 0, 0, 0, 0, 0, 0, 0, 0, 0, 0, 0,
  0, 0, 0, 0, 0, 0, 0, 0, 0, 0, 0, 0, 0, 0, 0, 0, 0, 0
  ]

/-- Regular-file entry `"dir/b"`. -/
def dirBHdr : List Nat :=
  [
  100, 105, 114, 47, 98, 0, 0, 0, 0, 0, 0, 0, 0, 0, 0, 0, 0, 0, 0, 0, 0, 0, 0, 0, 0, 0, 0, 0, 0,
  0, 0, 0, 0, 0, 0, 0, 0, 0, 0, 0, 0, 0, 0, 0, 0, 0, 0, 0, 0, 0, 0, 0, 0, 0, 0, 0, 0, 0, 0, 0,
  0, 0, 0, 0, 0, 0, 0, 0, 0, 0, 0, 0, 0, 0, 0, 0, 0, 0, 0, 0, 0, 0, 0, 0, 0, 0, 0, 0, 0, 0, 0,
  0, 0, 0, 0, 0, 0, 0, 0, 0, 0, 0, 0, 0, 0, 0, 0, 0, 0, 0, 0, 0, 0, 0, 0, 0, 0, 0, 0, 0, 0, 0,
  0, 0, 0, 0, 0, 0, 0, 0, 0, 0, 0, 0, 0, 0, 0, 0, 0, 0, 0, 0, 0, 0, 0, 0, 0, 0, 0, 0, 0, 0, 0,
  0, 0, 0, 48, 0, 0, 0, 0, 0, 0, 0, 0, 0, 0, 0, 0, 0, 0, 0, 0, 0, 0, 0, 0, 0, 0, 0, 0, 0, 0, 0,
  0, 0, 0, 0, 0, 0, 0, 0, 0, 0, 0, 0, 0, 0, 0, 0, 0, 0, 0, 0, 0, 0, 0, 0, 0, 0, 0, 0, 0, 0, 0,
  0, 0, 0, 0, 0, 0, 0, 0, 0, 0, 0, 0, 0, 0, 0, 0, 0, 0, 0, 0, 0, 0, 0, 0, 0, 0, 0, 0, 0, 0, 0,
  0, 0, 0, 0, 0, 0, 0, 0, 0, 0, 0, 0, 0, 0, 0, 0, 0, 0, 0, 0, 0, 0, 0, 0, 0, 0, 0, 0, 0, 0, 0,
  0, 0, 0, 0, 0, 0, 0, 0, 0, 0, 0, 0, 0, 0, 0, 0, 0, 0, 0, 0, 0, 0, 0, 0, 0, 0, 0, 0, 0, 0, 0,
  0, 0, 0, 0, 0, 0, 0, 0, 0, 0, 0, 0, 0, 0, 0, 0, 0, 0, 0, 0, 0, 0, 0, 0, 0, 0, 0, 0, 0, 0, 0,
  0, 0, 0, 0, 0, 0, 0, 0, 0, 0, 0, 0, 0, 0, 0, 0, 0, 0, 0, 0, 0, 0, 0, 0, 0, 0, 0, 0, 0, 0, 0,
  0, 0, 0, 0, 0, 0, 0, 0, 0, 0, 0, 0, 0, 0, 0, 0, 0, 0, 0, 0, 0, 0, 0, 0, 0, 0, 0, 0, 0, 0, 0,
  0, 0, 0, 0, 0, 0, 0, 0, 0, 0, 0, 0, 0, 0, 0, 0, 0, 0, 0, 0, 0, 0, 0, 0, 0, 0, 0, 0, 0, 0, 0,
  0, 0, 0, 0, 0, 0, 0, 0, 0, 0, 0, 0, 0, 0, 0, 0, 0, 0, 0, 0, 0, 0, 0, 0, 0, 0, 0, 0, 0, 0, 0,
  0, 0, 0, 0, 0, 0, 0, 0, 0, 0, 0, 0, 0, 0, 0, 0, 0, 0, 0, 0, 0, 0, 0, 0, 0, 0, 0, 0, 0, 0, 0,
  0, 0, 0, 0, 0, 0, 0, 0, 0, 0, 0, 0, 0, 0, 0, 0, 0, 0
  ]

/-- Regular-file entry `"dir/c/d"`. -/
def dirCDHdr : List Nat :=
  [
  100, 105, 114, 47, 99, 47, 100, 0, 0, 0, 0, 0, 0, 0, 0, 0, 0, 0, 0, 0, 0, 0, 0, 0, 0, 0, 0, 0,
  0, 0, 0, 0, 0, 0, 0, 0, 0, 0, 0, 0, 0, 0, 0, 0, 0, 0, 0, 0, 0, 0, 0, 0, 0, 0, 0, 0, 0, 0, 0,
  0, 0, 0, 0, 0, 0, 0, 0, 0, 0, 0, 0, 0, 0, 0, 0, 0, 0, 0, 0, 0, 0, 0, 0, 0, 0, 0, 0, 0, 0, 0,
  0, 0, 0, 0, 0, 0, 0, 0, 0, 0, 0, 0, 0, 0, 0, 0, 0, 0, 0, 0, 0, 0, 0, 0, 0, 0, 0, 0, 0, 0, 0,
  0, 0, 0, 0, 0, 0, 0, 0, 0, 0, 0, 0, 0, 0, 0, 0, 0, 0, 0, 0, 0, 0, 0, 0, 0, 0, 0, 0, 0, 0, 0,
  0, 0, 0, 0, 48, 0, 0, 0, 0, 0, 0, 0, 0, 0, 0, 0, 0, 0, 0, 0, 0, 0, 0, 0, 0, 0, 0, 0, 0, 0, 0,
  0, 0, 0, 0, 0, 0, 0, 0, 0, 0, 0, 0, 0, 0, 0, 0, 0, 0, 0, 0, 0, 0, 0, 0, 0, 0, 0, 0, 0, 0, 0,
  0, 0, 0, 0, 0, 0, 0, 0, 0, 0, 0, 0, 0, 0, 0, 0, 0, 0, 0, 0, 0, 0, 0, 0, 0, 0, 0, 0, 0, 0, 0,
  0, 0, 0, 0, 0, 0, 0, 0, 0, 0, 0, 0, 0, 0, 0, 0, 0, 0, 0, 0, 0, 0, 0, 0, 0, 0, 0, 0, 0, 0, 0,
  0, 0, 0, 0, 0, 0, 0, 0, 0, 0, 0, 0, 0, 0, 0, 0, 0, 0, 0, 0, 0, 0, 0, 0, 0, 0, 0, 0, 0, 0, 0,
  0, 0, 0, 0, 0, 0, 0, 0, 0, 0, 0, 0, 0, 0, 0, 0, 0, 0, 0, 0, 0, 0, 0, 0, 0, 0, 0, 0, 0, 0, 0,
  0, 0, 0, 0, 0, 0, 0, 0, 0, 0, 0, 0, 0, 0, 0, 0, 0, 0, 0, 0, 0, 0, 0, 0, 0, 0, 0, 0, 0, 0, 0,
  0, 0, 0, 0, 0, 0, 0, 0, 0, 0, 0, 0, 0, 0, 0, 0, 0, 0, 0, 0, 0, 0, 0, 0, 0, 0, 0, 0, 0, 0, 0,
  0, 0, 0, 0, 0, 0, 0, 0, 0, 0, 0, 0, 0, 0, 0, 0, 0, 0, 0, 0, 0, 0, 0, 0, 0, 0, 0, 0, 0, 0, 0,
  0, 0, 0, 0, 0, 0, 0, 0, 0, 0, 0, 0, 0, 0, 0, 0, 0, 0, 0, 0, 0, 0, 0, 0, 0, 0, 0, 0, 0, 0, 0,
  0, 0, 0, 0, 0, 0, 0, 0, 0, 0, 0, 0, 0, 0, 0, 0, 0, 0, 0, 0, 0, 0, 0, 0, 0, 0, 0, 0, 0, 0, 0,
  0, 0, 0, 0, 0, 0, 0, 0, 0, 0, 0, 0, 0, 0, 0, 0, 0, 0, 0
  ]

/-- Directory entry `"p/"`. -/
def pDirBlock : List Nat :=
  [
  112, 47, 0, 0, 0, 0, 0, 0, 0, 0, 0, 0, 0, 0, 0, 0, 0, 0, 0, 0, 0, 0, 0, 0, 0, 0, 0, 0, 0, 0,
  0, 0, 0, 0, 0, 0, 0, 0, 0, 0, 0, 0, 0, 0, 0, 0, 0, 0, 0, 0, 0, 0, 0, 0, 0, 0, 0, 0, 0, 0, 0,
  0, 0, 0, 0, 0, 0, 0, 0, 0, 0, 0, 0, 0, 0, 0, 0, 0, 0, 0, 0, 0, 0, 0, 0, 0, 0, 0, 0, 0, 0, 0,
  0, 0, 0, 0, 0, 0, 0, 0, 0, 0, 0, 0, 0, 0, 0, 0, 0, 0, 0, 0, 0, 0, 0, 0, 0, 0, 0, 0, 0, 0, 0,
  0, 0, 0, 0, 0, 0, 0, 0, 0, 0, 0, 0, 0, 0, 0, 0, 0, 0, 0, 0, 0, 0, 0, 0, 0, 0, 0, 0, 0, 0, 0,
  0, 0, 53, 0, 0, 0, 0, 0, 0, 0, 0, 0, 0, 0, 0, 0, 0, 0, 0, 0, 0, 0, 0, 0, 0, 0, 0, 0, 0, 0, 0,
  0, 0, 0, 0, 0, 0, 0, 0, 0, 0, 0, 0, 0, 0, 0, 0, 0, 0, 0, 0, 0, 0, 0, 0, 0, 0, 0, 0, 0, 0, 0,
  0, 0, 0, 0, 0, 0, 0, 0, 0, 0, 0, 0, 0, 0, 0, 0, 0, 0, 0, 0, 0, 0, 0, 0, 0, 0, 0, 0, 0, 0, 0,
  0, 0, 0, 0, 0, 0, 0, 0, 0, 0, 0, 0, 0, 0, 0, 0, 0, 0, 0, 0, 0, 0, 0, 0, 0, 0, 0, 0, 0, 0, 0,
  0, 0, 0, 0, 0, 0, 0, 0, 0, 0, 0, 0, 0, 0, 0, 0, 0, 0, 0, 0, 0, 0, 0, 0, 0, 0, 0, 0, 0, 0, 0,
  0, 0, 0, 0, 0, 0, 0, 0, 0, 0, 0, 0, 0, 0, 0, 0, 0, 0, 0, 0, 0, 0, 0, 0, 0, 0, 0, 0, 0, 0, 0,
  0, 0, 0, 0, 0, 0, 0, 0, 0, 0, 0, 0, 0, 0, 0, 0, 0, 0, 0, 0, 0, 0, 0, 0, 0, 0, 0, 0, 0, 0, 0,
  0, 0, 0, 0, 0, 0, 0, 0, 0, 0, 0, 0, 0, 0, 0, 0, 0, 0, 0, 0, 0, 0, 0, 0, 0, 0, 0, 0, 0, 0, 0,
  0, 0, 0, 0, 0, 0, 0, 0, 0, 0, 0, 0, 0, 0, 0, 0, 0, 0, 0, 0, 0, 0, 0, 0, 0, 0, 0, 0, 0, 0, 0,
  0, 0, 0, 0, 0, 0, 0, 0, 0, 0, 0, 0, 0, 0, 0, 0, 0, 0, 0, 0, 0, 0, 0, 0, 0, 0, 0, 0, 0, 0, 0,
  0, 0, 0, 0, 0, 0, 0, 0, 0, 0, 0, 0, 0, 0, 0, 0, 0, 0, 0, 0, 0, 0, 0, 0, 0, 0, 0, 0, 0, 0, 0,
  0, 0, 0, 0, 0, 0, 0, 0, 0, 0, 0, 0, 0, 0, 0, 0, 0
  ]

/-- Archive whose only block is the all-zero terminator. -/
def termOnlySrc : List Nat := zeros 512

/-- Archive with one valid entry followed by a terminator block. -/
def oneEntrySrc : List Nat := hdrValidA ++ zeros 512

/-- Archive consisting of the single `nulMagicBlock`. -/
def nulMagicSrc : List Nat := nulMagicBlock

/-- Archive consisting of the single `badMagicBlock`. -/
def badMagicSrc : List Nat := badMagicBlock

/-- Archive with the self-referential symlink `a -> a` and a terminator. -/
def selfLinkSrc : List Nat := selfLinkBlock ++ zeros 512

/-- Archive with the prefixed entry and a terminator. -/
def prefixedSrc : List Nat := prefixedBlock ++ zeros 512

/-- Archive with the 2-byte file `"a"`: header, content `"hi"`, padding. -/
def fileSrc : List Nat := fileHdrA ++ [104, 105] ++ zeros 510

/-- Archive with the zero-size file `"a"` and a terminator. -/
def emptyFileSrc : List Nat := emptyFileBlock ++ zeros 512

/-- Archive with one non-matching entry and no terminator block. -/
def noTermSrc : List Nat := emptyFileBlock

/-- Archive with the chain `a -> b -> c`, `c` a regular file; the source
ends after `c`, which the scans treat like a terminator. -/
def chainSrc : List Nat := linkABlock ++ linkBBlock ++ fileCBlock

/-- Archive with the single file `"f"` and a terminator. -/
def fileFSrc : List Nat := fileFBlock ++ zeros 512

/-- Name bytes of `"dir/"`. -/
def dirPath : List Nat := [100, 105, 114, 47]

/-- A cut-down instance of the specification example tree: `dir/`, `dir/a`
and the grandchild `dir/c/d`; the source ends there, which the scans treat
like a terminator.  (Larger archives exceed the elaborator's evaluation
depth; three entries already exhibit the child vs grandchild distinction.) -/
def treeSrc : List Nat :=
  dirHdr ++ dirAHdr ++ dirCDHdr

/-- Tree with two direct children: `dir/`, `dir/a`, `dir/b`. -/
def twoChildSrc : List Nat :=
  dirHdr ++ dirAHdr ++ dirBHdr

/-- Archive with directory `"p/"` and the prefixed entry whose full path is
`"p/x"`, followed by a terminator. -/
def pTreeSrc : List Nat := pDirBlock ++ prefixedBlock ++ zeros 512

theorem cstr_nil_iff (h : List Nat) : cstr h = [] ↔ byteAt h 0 = 0 := by
  cases h with
  | nil => simp [cstr, byteAt]
  | cons c t =>
    by_cases hc : c = 0 <;>
      simp [cstr, byteAt, List.takeWhile_cons, hc]

theorem strcmpEq_iff (a b : List Nat) : strcmpEq a b = true ↔ cstr a = cstr b := by
  simp [strcmpEq]

theorem exists_loop_spec (fuel : Nat) :
    ∀ (src : List Nat) (pos : Nat) (path : List Nat),
      (exists_loop fuel src pos path).1 =
        specExistsName (blocks_loop fuel src pos) path := by
  induction fuel with
  | zero => intro src pos path; simp [exists_loop, blocks_loop, specExistsName]
  | succ f ih =>
    intro src pos path
    rw [exists_loop, blocks_loop]
    cases hrb : readBlock src pos with
    | none => simp [specExistsName]
    | some h =>
      simp only [specExistsName]
      by_cases h0 : byteAt h 0 = 0
      · simp [h0, (cstr_nil_iff h).2 h0]
      · have hne : ¬ cstr h = [] := fun hc => h0 ((cstr_nil_iff h).1 hc)
        by_cases hm : strcmpEq h path = true
        · have heq := (strcmpEq_iff h path).1 hm
          have hne2 : ¬ cstr path = [] := heq ▸ hne
          simp [h0, hne, hm, heq, hne2]
        · have hmn : ¬ cstr h = cstr path := fun hc => hm ((strcmpEq_iff h path).2 hc)
          simp [h0, hne, hm, hmn, ih]

theorem exists_loop_no_match (fuel : Nat) :
    ∀ (src : List Nat) (pos : Nat) (path : List Nat),
      (∀ b ∈ blocks_loop fuel src pos, byteAt b 0 ≠ 0 ∧ cstr b ≠ cstr path) →
      exists_loop fuel src pos path = (0, 0) := by
  induction fuel with
  | zero => intro src pos path _; rw [exists_loop]
  | succ f ih =>
    intro src pos path hall
    rw [exists_loop]
    cases hrb : readBlock src pos with
    | none => rfl
    | some h =>
      have hmem : h ∈ blocks_loop (f + 1) src pos := by
        rw [blocks_loop, hrb]; exact List.mem_cons_self _ _
      obtain ⟨h0, hm⟩ := hall h hmem
      have hms : ¬ strcmpEq h path = true := fun hc => hm ((strcmpEq_iff h path).1 hc)
      simp only [h0, hms, if_false, ite_false]
      exact ih src (pos + 512 + aligned_size h) path (fun b hb => hall b (by
        rw [blocks_loop, hrb]; exact List.mem_cons_of_mem _ hb))

theorem read_scan_loop_find (fuel : Nat) :
    ∀ (src : List Nat) (pos : Nat) (path : List Nat) (offset cap : Nat),
      read_scan_loop fuel src pos path offset cap =
        (match find_loop fuel src pos path with
         | none => .done (-1) none []
         | some q => readDispatch src q.1 q.2 offset cap) := by
  induction fuel with
  | zero => intro src pos path offset cap; rw [read_scan_loop, find_loop]
  | succ f ih =>
    intro src pos path offset cap
    rw [read_scan_loop, find_loop]
    cases hrb : readBlock src pos with
    | none => rfl
    | some h =>
      by_cases h0 : byteAt h 0 = 0
      · simp [h0]
      · by_cases hm : strcmpEq h path = true
        · simp [h0, hm]
        · simp [h0, hm, ih]

theorem gs_scan_loop_find (fuel : Nat) :
    ∀ (src : List Nat) (pos q : Nat) (path h : List Nat),
      find_loop fuel src pos path = some (q, h) →
      gs_scan_loop fuel src pos path = gsDispatch src q h path := by
  induction fuel with
  | zero => intro src pos q path h hf; rw [find_loop] at hf; cases hf
  | succ f ih =>
    intro src pos q path h hf
    rw [find_loop] at hf
    rw [gs_scan_loop]
    cases hrb : readBlock src pos with
    | none => simp [hrb] at hf
    | some b =>
      simp only [hrb] at hf ⊢
      by_cases h0 : byteAt b 0 = 0
      · simp [h0] at hf
      · by_cases hm : strcmpEq b path = true
        · simp only [h0, hm, if_true, if_false, ite_true, ite_false,
            Option.some.injEq, Prod.mk.injEq] at hf
          obtain ⟨h1, h2⟩ := hf
          subst h1; subst h2
          simp [h0, hm]
        · simp only [h0, hm, if_false, ite_false] at hf
          simp only [h0, hm, if_false, ite_false]
          exact ih src _ q path h hf

/-- C1: `check_archive` is claimed to return the number N of non-terminator
entries, including N = 0 when the very first block is a terminator.  The code
instead counts the terminator block itself when the count is still 0
(`valid_archive` returns `nheader = 0`, which the caller cannot distinguish
from success): the archive consisting of a single all-zero terminator yields
1, the same value as an archive with one genuine entry and a terminator. -/
theorem c1_terminator_miscounted :
    check_archive termOnlySrc = 1 ∧ check_archive oneEntrySrc = 1 := by
  constructor <;> decide

/-- C2 (amended): for every header block whose magic field does not begin
with a NUL byte (the code's end-of-archive test), `check_archive` checks
magic, then version, then checksum, and the first failing check determines
the result, -1, -2 or -3, at whatever scan state the block is examined. -/
theorem c2_error_precedence (src : List Nat) (pos n fuel : Nat) (b : List Nat)
    (hrb : readBlock src pos = some b) (hnt : byteAt b 257 ≠ 0) :
    (magicOk b = false → check_archive_loop (fuel + 1) src pos n = -1) ∧
    (magicOk b = true → versionOk b = false →
      check_archive_loop (fuel + 1) src pos n = -2) ∧
    (magicOk b = true → versionOk b = true → check_sum b = false →
      check_archive_loop (fuel + 1) src pos n = -3) := by
  rw [check_archive_loop]
  simp only [hrb]
  refine ⟨?_, ?_, ?_⟩
  · intro hm
    simp [valid_archive, hnt, hm]
  · intro hm hv
    simp [valid_archive, hnt, hm, hv]
  · intro hm hv hc
    simp [valid_archive, hnt, hm, hv, hc]

/-- C2 witness: a block with name `"a"` and magic starting with `'x'` is
rejected as a magic error. -/
theorem c2_error_precedence_witness :
    check_archive_loop 1 badMagicSrc 0 0 = -1 :=
  (c2_error_precedence badMagicSrc 0 0 0 badMagicBlock (by decide)
    (by decide)).1 (by decide)

/-- C2 counterexample: a non-terminator block (name `"a"`, hence not all
zero) whose magic field starts with NUL has an invalid magic, yet
`check_archive` returns 1 instead of the claimed -1 — the block is treated
as an end-of-archive marker and even counted. -/
theorem c2_nul_magic_not_an_error :
    nulMagicBlock ≠ zeros 512 ∧ magicOk nulMagicBlock = false ∧
    check_archive nulMagicSrc = 1 := by
  refine ⟨by decide, by decide, by decide⟩

/-- C3: `read_file` on the self-referential symlink `a -> a` never returns:
the recursion rewinds to position 0 and re-enters itself with identical
arguments, for every amount of hop fuel.  There is no hop bound anywhere in
the code. -/
theorem c3_read_file_diverges (fuel : Nat) :
    read_file_fuel fuel selfLinkSrc [97] 0 10 = none := by
  have hs : read_scan selfLinkSrc [97] 0 10 = .hop [97] := by decide
  induction fuel with
  | zero => rw [read_file_fuel, hs]
  | succ f ih => rw [read_file_fuel, hs]; exact ih

/-- C3 sanity instance: the divergence at a concrete fuel value. -/
theorem c3_read_file_diverges_witness :
    read_file_fuel 100 selfLinkSrc [97] 0 10 = none :=
  c3_read_file_diverges 100

/-- C4 counterexample: the entry stored with prefix `"p"` and name `"x"` has
full path `"p/x"`, but `exists` compares the name field only: the query
`"p/x"` is not found while the bare name `"x"` is. -/
theorem c4_prefix_ignored :
    specFullPath prefixedBlock = [112, 47, 120] ∧
    (exists_st prefixedSrc 0 [112, 47, 120]).1 = 0 ∧
    (exists_st prefixedSrc 0 [120]).1 = 1 := by
  refine ⟨by decide, by decide, by decide⟩

/-- C4 (amended): `exists` compares the query against the entry's stored
name field alone (the prefix field is ignored), using exact string equality,
returns on the first match in archive order, and stops at the first block
whose name is empty. -/
theorem c4_exists_matches_name_only (src path : List Nat) (pos : Nat) :
    (exists_st src pos path).1 = specExistsName (blocksFrom src pos) path :=
  exists_loop_spec (loopFuel src) src pos path

/-- C8 counterexample: with the archive `[file "a" (size 0), terminator]`,
a first `exists` call for `"a"` returns 1 and leaves the descriptor after
the matched header; the immediately repeated call returns 0. -/
theorem c8_not_idempotent :
    (exists_st emptyFileSrc 0 [97]).1 = 1 ∧
    (exists_st emptyFileSrc (exists_st emptyFileSrc 0 [97]).2 [97]).1 = 0 := by
  refine ⟨by decide, by decide⟩

/-- C8 (amended): `exists` is idempotent when the scan reaches the end of
the source (no terminator block and no matching entry): that path rewinds
the descriptor to 0, so the repeated call returns the identical result.
A call that returns early (match or terminator) leaves the position
mid-archive and idempotence can fail. -/
theorem c8_idempotent_on_eof (src path : List Nat)
    (h : ∀ b ∈ blocksFrom src 0, byteAt b 0 ≠ 0 ∧ cstr b ≠ cstr path) :
    exists_st src 0 path = (0, 0) ∧
    exists_st src (exists_st src 0 path).2 path = exists_st src 0 path := by
  have h1 : exists_st src 0 path = (0, 0) :=
    exists_loop_no_match (loopFuel src) src 0 path h
  refine ⟨h1, ?_⟩
  rw [h1]
  exact h1

/-- C8 witness: one non-matching entry and no terminator. -/
theorem c8_idempotent_on_eof_witness :
    exists_st noTermSrc 0 [98] = (0, 0) ∧
    exists_st noTermSrc (exists_st noTermSrc 0 [98]).2 [98] =
      exists_st noTermSrc 0 [98] :=
  c8_idempotent_on_eof noTermSrc [98] (by decide)

/-- C9 counterexample: on the chain `a -> b -> c` with `c` a regular file,
the entry for `"a"` is found, yet `get_symlink` returns NULL (the recursive
call scans from the position `is_symlink` left behind and never sees `"b"`
again), not the terminal resolved path `"c/"`; the caller's buffer is left
unchanged. -/
theorem c9_chain_returns_null :
    (find_entry chainSrc 0 [97]).isSome = true ∧
    typeflag fileCBlock = 48 ∧
    (get_symlink_fuel 5 chainSrc 0 [97]).1 = some none ∧
    (get_symlink_fuel 5 chainSrc 0 [97]).2.2 = [97] := by
  refine ⟨by decide, by decide, by decide, by decide⟩

/-- C9 (amended): when the scan finds an entry whose name equals the path
and whose typeflag is not symlink, `get_symlink` returns the queried path
itself with `'/'` appended — built by `strcat` into the caller-supplied path
buffer, which is therefore mutated in place to `path ++ "/"`. -/
theorem c9_strcat_mutates_buffer (src path h : List Nat) (pos q fuel : Nat)
    (hf : find_entry src pos path = some (q, h))
    (ht : typeflag h ≠ 50) :
    get_symlink_fuel fuel src pos path =
      (some (some (path ++ [47])), q + 512, path ++ [47]) := by
  have hgs : gs_scan src pos path = .strcatOut (q + 512) := by
    rw [gs_scan, gs_scan_loop_find (loopFuel src) src pos q path h hf]
    simp [gsDispatch, ht]
  rw [get_symlink_fuel, hgs]

/-- C9 witness: a single regular-file entry `"f"`. -/
theorem c9_strcat_mutates_buffer_witness :
    get_symlink_fuel 3 fileFSrc 0 [102] =
      (some (some [102, 47]), 512, [102, 47]) :=
  c9_strcat_mutates_buffer fileFSrc [102] fileFBlock 0 0 3 (by decide)
    (by decide)

/-- C5: for a regular-file entry found by the scan, `read_file` fails with -2
exactly when `offset >= size` (the unrounded octal size, including
`offset = size = 0`); otherwise it writes exactly
`min(buffer capacity, size - offset)` bytes of the content starting at
`offset`, stores that count in the in-out length, and returns
`size - offset - bytes_written`. -/
theorem c5_read_file_contract (src path hdr : List Nat) (p offset cap fuel : Nat)
    (hfind : find_entry src 0 path = some (p, hdr))
    (htf : typeflag hdr = 48 ∨ typeflag hdr = 0)
    (hlen : p + 512 + parseOctU64 (hdr.drop 124) ≤ src.length) :
    read_file_fuel fuel src path offset cap =
      (if parseOctU64 (hdr.drop 124) ≤ offset then some (-2, none, [])
       else
        some (((parseOctU64 (hdr.drop 124) - offset -
            min cap (parseOctU64 (hdr.drop 124) - offset) : Nat) : Int),
          some (min cap (parseOctU64 (hdr.drop 124) - offset)),
          (src.drop (p + 512 + offset)).take
            (min cap (parseOctU64 (hdr.drop 124) - offset)))) := by
  have hfind2 : find_loop (loopFuel src) src 0 path = some (p, hdr) := hfind
  have hscan : read_scan src path offset cap = readDispatch src p hdr offset cap := by
    rw [read_scan, read_scan_loop_find (loopFuel src) src 0 path offset cap,
      hfind2]
  have h50 : ¬ typeflag hdr = 50 := by rcases htf with h | h <;> omega
  have hreg : ¬ (typeflag hdr ≠ 48 ∧ typeflag hdr ≠ 0) := by
    rcases htf with h | h <;> simp [h]
  rw [read_file_fuel, hscan, readDispatch, if_neg h50, if_neg hreg]
  by_cases hoff : offset ≥ parseOctU64 (hdr.drop 124)
  · simp only [ge_iff_le, hoff, if_pos, if_true, ite_true]
  · have hlt : offset < parseOctU64 (hdr.drop 124) := Nat.lt_of_not_le hoff
    have hbr : min (min cap (parseOctU64 (hdr.drop 124) - offset))
        (src.length - (p + 512 + offset)) =
        min cap (parseOctU64 (hdr.drop 124) - offset) := by
      apply Nat.min_eq_left
      have h1 : min cap (parseOctU64 (hdr.drop 124) - offset) ≤
          parseOctU64 (hdr.drop 124) - offset := Nat.min_le_right _ _
      omega
    simp only [ge_iff_le, hoff, if_neg, ite_false, hbr]
    have hcast : ((parseOctU64 (hdr.drop 124) : Int) - (offset : Int) -
        ((min cap (parseOctU64 (hdr.drop 124) - offset) : Nat) : Int)) =
        ((parseOctU64 (hdr.drop 124) - offset -
          min cap (parseOctU64 (hdr.drop 124) - offset) : Nat) : Int) := by
      have h1 : min cap (parseOctU64 (hdr.drop 124) - offset) ≤
          parseOctU64 (hdr.drop 124) - offset := Nat.min_le_right _ _
      omega
    rw [hcast]

/-- C5 witness: reading the 2-byte file `"a"` at offset 0 with capacity 10
writes both content bytes and returns 0. -/
theorem c5_read_file_contract_witness :
    read_file_fuel 0 fileSrc [97] 0 10 = some (0, some 2, [104, 105]) := by
  have h := c5_read_file_contract fileSrc [97] fileHdrA 0 0 10 0 (by decide)
    (by decide) (by decide)
  rw [h]
  decide

theorem cstr_of_no_zero (l : List Nat) (h : 0 ∉ l) : cstr l = l :=
  List.takeWhile_eq_self_iff.2 (fun x hx => by
    have : x ≠ 0 := fun h0 => h (h0 ▸ hx)
    simpa using this)

theorem cstrncmpEq_prefix_iff (path : List Nat) :
    ∀ h : List Nat, 0 ∉ path →
      (cstrncmpEq h path path.length = true ↔ path <+: cstr h) := by
  induction path with
  | nil => intro h _; simp [cstrncmpEq]
  | cons p ps ih =>
    intro h hp
    have hp0 : p ≠ 0 := fun h0 => hp (h0 ▸ List.mem_cons_self _ _)
    have hps : 0 ∉ ps := fun hm => hp (List.mem_cons_of_mem _ hm)
    cases h with
    | nil =>
      constructor
      · intro hc
        rw [List.length_cons, cstrncmpEq] at hc
        simp only [List.headD_nil] at hc
        rw [if_neg (fun hh => hp0 hh.symm)] at hc
        cases hc
      · intro hc
        exfalso
        simp [cstr] at hc
    | cons c t =>
      rw [List.length_cons, cstrncmpEq]
      by_cases hc : c = p
      · subst hc
        simp only [List.headD_cons, if_pos rfl, if_neg hp0, List.tail_cons]
        have hcs : cstr (c :: t) = c :: cstr t := by
          simp [cstr, List.takeWhile_cons, hp0]
        rw [hcs, List.cons_prefix_cons]
        simp only [true_and]
        exact ih t hps
      · simp only [List.headD_cons, if_neg (fun hh => hc hh)]
        constructor
        · intro hf; cases hf
        · intro hf
          exfalso
          by_cases hc0 : c = 0
          · subst hc0
            simp [cstr, List.takeWhile_cons] at hf
          · have hcs : cstr (c :: t) = c :: cstr t := by
              simp [cstr, List.takeWhile_cons, hc0]
            rw [hcs, List.cons_prefix_cons] at hf
            exact hc hf.1.symm

theorem cstr_drop (n : Nat) :
    ∀ h : List Nat, n ≤ (cstr h).length →
      cstr (h.drop n) = (cstr h).drop n := by
  induction n with
  | zero => intro h _; simp
  | succ m ih =>
    intro h hn
    cases h with
    | nil => simp [cstr] at hn ⊢
    | cons c t =>
      by_cases hc : c = 0
      · subst hc; simp [cstr, List.takeWhile_cons] at hn
      · have hcs : cstr (c :: t) = c :: cstr t := by
          simp [cstr, List.takeWhile_cons, hc]
        rw [hcs] at hn ⊢
        simp only [List.drop_succ_cons, List.length_cons] at hn ⊢
        exact ih t (Nat.le_of_succ_le_succ hn)

theorem takeWhile_take_comm (p : Nat → Bool) (l : List Nat) :
    ∀ n : Nat, (l.take n).takeWhile p = (l.takeWhile p).take n := by
  induction l with
  | nil => intro n; simp
  | cons c t ih =>
    intro n
    cases n with
    | zero => simp
    | succ m =>
      by_cases hc : p c
      · simp [List.take_succ_cons, List.takeWhile_cons, hc, ih]
      · simp [List.take_succ_cons, List.takeWhile_cons, hc]

theorem getLast?_mem_list (l : List Nat) (a : Nat) (h : l.getLast? = some a) :
    a ∈ l := by
  obtain ⟨hne, heq⟩ := List.mem_getLast?_eq_getLast (x := a) (l := l)
    (by simp [Option.mem_def, h])
  rw [heq]
  exact List.getLast_mem hne

theorem slashCond_iff (r : List Nat) :
    (((r.indexOf 47 == r.length) || (r.indexOf 47 + 1 == r.length)) = true) ↔
    (r.count 47 = 0 ∨ (r.count 47 = 1 ∧ r.getLast? = some 47)) := by
  induction r with
  | nil => simp [List.indexOf_nil]
  | cons a r ih =>
    by_cases ha : a = 47
    · subst ha
      cases r with
      | nil => simp
      | cons b t =>
        constructor
        · intro h
          exfalso
          rw [List.indexOf_cons] at h
          simp only [beq_self_eq_true, cond_true, List.length_cons] at h
          rcases Bool.or_eq_true_iff.1 h with h1 | h1
          · have := eq_of_beq h1; omega
          · have := eq_of_beq h1; omega
        · rintro (h | ⟨h1, h2⟩)
          · exfalso
            rw [List.count_cons] at h
            simp at h
          · exfalso
            rw [List.count_cons] at h1
            simp only [beq_self_eq_true, if_true, ite_true] at h1
            have hcz : (b :: t).count 47 = 0 := by omega
            have hmem : 47 ∈ b :: t := by
              rw [List.getLast?_cons_cons] at h2
              exact getLast?_mem_list _ _ h2
            exact (List.count_eq_zero.1 hcz) hmem
    · have hbeq : (a == 47) = false := by simpa using ha
      rw [List.indexOf_cons]
      cases r with
      | nil =>
        simp only [hbeq, cond_false, List.indexOf_nil, List.length_cons,
          List.length_nil, List.count_cons, List.count_nil]
        constructor
        · intro _
          left
          simpa using ha
        · intro _
          simp
      | cons b t =>
        have hlast : (a :: b :: t).getLast? = (b :: t).getLast? :=
          List.getLast?_cons_cons
        have hcnt : (a :: b :: t).count 47 = (b :: t).count 47 := by
          rw [List.count_cons, hbeq]
          simp
        rw [hlast, hcnt]
        rw [← ih]
        simp only [hbeq, cond_false, List.length_cons]
        have hl : (b :: t).length = t.length + 1 := by simp
        constructor
        · intro h
          rcases Bool.or_eq_true_iff.1 h with h1 | h1
          · have he := eq_of_beq h1
            apply Bool.or_eq_true_iff.2
            left
            have h2 : (b :: t).indexOf 47 = (b :: t).length := by omega
            simpa using h2
          · have he := eq_of_beq h1
            apply Bool.or_eq_true_iff.2
            right
            have h2 : (b :: t).indexOf 47 + 1 = (b :: t).length := by omega
            simpa using h2
        · intro h
          rcases Bool.or_eq_true_iff.1 h with h1 | h1
          · have he := eq_of_beq h1
            apply Bool.or_eq_true_iff.2
            left
            have h2 : (b :: t).indexOf 47 + 1 = (b :: t).length + 1 := by omega
            simpa using h2
          · have he := eq_of_beq h1
            apply Bool.or_eq_true_iff.2
            right
            have h2 : (b :: t).indexOf 47 + 1 + 1 = (b :: t).length + 1 := by
              omega
            simpa using h2

theorem childCond_iff (path h : List Nat) (hp : 0 ∉ path) :
    (childCond h path = true ∧ strcmpEq path h = false) ↔
    directChild path (cstr h) = true := by
  have hlen : strlen path = path.length := by
    rw [strlen, cstr_of_no_zero path hp]
  rw [childCond, hlen, directChild]
  simp only [Bool.and_eq_true, decide_eq_true_eq]
  constructor
  · rintro ⟨⟨hpre, hslash⟩, hne⟩
    have hpre2 := (cstrncmpEq_prefix_iff path h hp).1 hpre
    have hdrop : cstr (h.drop path.length) = (cstr h).drop path.length :=
      cstr_drop path.length h (List.IsPrefix.length_le hpre2)
    refine ⟨hpre2, ?_, ?_⟩
    · intro he
      rw [strcmpEq, cstr_of_no_zero path hp, he] at hne
      simp at hne
    · rw [← hdrop]
      exact (slashCond_iff _).1 hslash
  · rintro ⟨hpre2, hne, hslash⟩
    have hdrop : cstr (h.drop path.length) = (cstr h).drop path.length :=
      cstr_drop path.length h (List.IsPrefix.length_le hpre2)
    refine ⟨⟨(cstrncmpEq_prefix_iff path h hp).2 hpre2, ?_⟩, ?_⟩
    · rw [hdrop]
      exact (slashCond_iff _).2 hslash
    · rw [strcmpEq, cstr_of_no_zero path hp]
      simpa using fun he => hne he.symm

theorem matchingBlocks_filter (path : List Nat) (hp : 0 ∉ path) :
    ∀ bs : List (List Nat),
      (matchingBlocks bs path).map cstr =
        (headerNames bs).filter (fun n => directChild path n) := by
  intro bs
  induction bs with
  | nil => simp [matchingBlocks, headerNames]
  | cons h rest ih =>
    rw [matchingBlocks, headerNames]
    by_cases h0 : byteAt h 0 = 0
    · simp [h0, (cstr_nil_iff h).2 h0]
    · have hne : ¬ cstr h = [] := fun hc => h0 ((cstr_nil_iff h).1 hc)
      rw [if_neg h0, if_neg hne]
      by_cases hm : childCond h path = true ∧ strcmpEq path h = false
      · have hd := (childCond_iff path h hp).1 hm
        rw [if_pos hm]
        simp [List.filter_cons, hd, ih]
      · have hd : ¬ directChild path (cstr h) = true := fun hdc =>
          hm ((childCond_iff path h hp).2 hdc)
        rw [if_neg hm]
        simp [List.filter_cons, hd, ih]

theorem list_loop_spec (fuel : Nat) :
    ∀ (src : List Nat) (pos : Nat) (path : List Nat) (cap count : Nat)
      (acc : List (List Nat)),
      list_loop fuel src pos path cap count acc =
        (count + ((matchingBlocks (blocks_loop fuel src pos) path).take
            (cap - count)).length,
          acc ++ ((matchingBlocks (blocks_loop fuel src pos) path).take
            (cap - count)).map entryWrite) := by
  induction fuel with
  | zero => intros; simp [list_loop, blocks_loop, matchingBlocks]
  | succ f ih =>
    intro src pos path cap count acc
    rw [list_loop, blocks_loop]
    cases hrb : readBlock src pos with
    | none => simp [matchingBlocks]
    | some h =>
      simp only []
      by_cases h0 : byteAt h 0 = 0
      · rw [if_pos h0, matchingBlocks, if_pos h0]
        simp
      · rw [if_neg h0, matchingBlocks, if_neg h0]
        by_cases hsc : strcmpEq path h = false
        · by_cases hcc : childCond h path = true
          · have hpos : (childCond h path = true ∧ strcmpEq path h = false) :=
              ⟨hcc, hsc⟩
            rw [if_pos hpos]
            by_cases hcount : count < cap
            · simp only [hcc, hsc, hcount, if_true, ite_true, and_self,
                and_true, true_and, eq_self_iff_true]
              rw [ih]
              have hsub : cap - count = (cap - (count + 1)) + 1 := by omega
              rw [hsub, List.take_succ_cons]
              simp only [List.length_cons, List.map_cons, Prod.mk.injEq]
              constructor
              · omega
              · simp [List.append_assoc]
            · simp only [hcc, hsc, hcount, if_true, ite_true, and_self,
                and_true, true_and, false_and, if_false, ite_false,
                eq_self_iff_true]
              rw [ih]
              have hsub : cap - count = 0 := by omega
              rw [hsub]
              simp
          · have hneg : ¬ (childCond h path = true ∧
                strcmpEq path h = false) := fun hc => hcc hc.1
            rw [if_neg hneg]
            simp only [hcc, if_false, ite_false]
            exact ih src _ path cap count acc
        · have hneg : ¬ (childCond h path = true ∧
              strcmpEq path h = false) := fun hc => hsc hc.2
          rw [if_neg hneg]
          have hst : strcmpEq path h = true := by
            cases hb : strcmpEq path h
            · exact absurd hb hsc
            · rfl
          by_cases hcc : childCond h path = true
          · simp only [hcc, hst, if_true, ite_true, and_false, if_false,
              ite_false, Bool.true_eq_false, eq_self_iff_true]
            exact ih src _ path cap count acc
          · simp only [hcc, if_false, ite_false]
            exact ih src _ path cap count acc

theorem byteAt_set_ne (l : List Nat) (a : Nat) :
    ∀ i j : Nat, i ≠ j → byteAt (l.set j a) i = byteAt l i := by
  induction l with
  | nil => intro i j _; simp [byteAt]
  | cons c t ih =>
    intro i j hij
    cases j with
    | zero =>
      cases i with
      | zero => exact absurd rfl hij
      | succ k => simp [byteAt, List.getD_cons_succ]
    | succ m =>
      cases i with
      | zero => simp [byteAt, List.getD_cons_zero]
      | succ k =>
        simp only [List.set_cons_succ, byteAt, List.getD_cons_succ]
        exact ih k m (fun hh => hij (by rw [hh]))

theorem byteAt_append_lt (u v : List Nat) :
    ∀ i : Nat, i < u.length → byteAt (u ++ v) i = byteAt u i := by
  induction u with
  | nil => intro i hi; simp at hi
  | cons c t ih =>
    intro i hi
    cases i with
    | zero => simp [byteAt]
    | succ k =>
      simp only [List.cons_append, byteAt, List.getD_cons_succ]
      exact ih k (by simpa using Nat.lt_of_succ_lt_succ hi)

theorem byteAt_append_right (u v : List Nat) :
    ∀ i : Nat, byteAt (u ++ v) (u.length + i) = byteAt v i := by
  induction u with
  | nil => intro i; simp [byteAt]
  | cons c t ih =>
    intro i
    have hsh : (c :: t).length + i = (t.length + i) + 1 := by
      simp [List.length_cons]
      omega
    rw [hsh]
    simp only [List.cons_append, byteAt, List.getD_cons_succ]
    exact ih i

theorem take_set_of_le (a : Nat) :
    ∀ (l : List Nat) (n i : Nat), n ≤ i → (l.set i a).take n = l.take n := by
  intro l
  induction l with
  | nil => intro n i _; simp
  | cons c t ih =>
    intro n i hni
    cases n with
    | zero => simp
    | succ m =>
      cases i with
      | zero => omega
      | succ j =>
        simp only [List.set_cons_succ, List.take_succ_cons]
        rw [ih m j (by omega)]

theorem cstr_eq_take_of (n : Nat) :
    ∀ l : List Nat, (∀ i, i < n → byteAt l i ≠ 0) → byteAt l n = 0 →
      cstr l = l.take n := by
  induction n with
  | zero =>
    intro l _ h0
    cases l with
    | nil => simp [cstr]
    | cons c t =>
      simp only [byteAt, List.getD_cons_zero] at h0
      simp [cstr, List.takeWhile_cons, h0]
  | succ m ih =>
    intro l hlt h0
    cases l with
    | nil => simp [cstr]
    | cons c t =>
      have hc : c ≠ 0 := by
        have := hlt 0 (Nat.succ_pos m)
        simpa [byteAt, List.getD_cons_zero] using this
      have hcs : cstr (c :: t) = c :: cstr t := by
        simp [cstr, List.takeWhile_cons, hc]
      rw [hcs, List.take_succ_cons]
      congr 1
      refine ih t (fun i hi => ?_) ?_
      · have := hlt (i + 1) (Nat.succ_lt_succ hi)
        simpa [byteAt, List.getD_cons_succ] using this
      · simpa [byteAt, List.getD_cons_succ] using h0

theorem strncpy100_prefix_eq (h : List Nat) :
    (h.take 100).takeWhile (fun c => c != 0) = (cstr h).take 100 := by
  rw [cstr, takeWhile_take_comm]

theorem strncpy100_length_le (h : List Nat) :
    ((h.take 100).takeWhile (fun c => c != 0)).length ≤ 100 := by
  rw [strncpy100_prefix_eq]
  rw [List.length_take]
  exact Nat.min_le_left _ _

theorem entryWrite_length (h : List Nat) : (entryWrite h).length = 100 := by
  rw [entryWrite, List.length_set, strncpy100, List.length_append,
    List.length_replicate]
  have := strncpy100_length_le h
  omega

theorem entryWrite_nul99 (h : List Nat) : byteAt (entryWrite h) 99 = 0 := by
  have hlen : 99 < ((strncpy100 h).set 99 0).length := by
    have h1 := entryWrite_length h
    rw [entryWrite] at h1
    omega
  rw [byteAt, entryWrite, List.getD_eq_getElem _ _ hlen]
  exact List.getElem_set_self hlen

theorem byteAt_strncpy_lt (h : List Nat) (i : Nat)
    (hi : i < ((h.take 100).takeWhile (fun c => c != 0)).length) :
    byteAt (strncpy100 h) i ≠ 0 := by
  rw [strncpy100, byteAt_append_lt _ _ i hi]
  rw [byteAt, List.getD_eq_getElem _ _ hi]
  have hmem := List.getElem_mem hi
  have := List.mem_takeWhile_imp hmem
  simpa using this

theorem byteAt_replicate_zero (n : Nat) :
    ∀ i : Nat, byteAt (List.replicate n 0) i = 0 := by
  induction n with
  | zero => intro i; simp [byteAt]
  | succ m ih =>
    intro i
    cases i with
    | zero => simp [List.replicate_succ, byteAt]
    | succ k =>
      simp only [List.replicate_succ, byteAt, List.getD_cons_succ]
      exact ih k

theorem cstr_entryWrite (h : List Nat) :
    cstr (entryWrite h) = (cstr h).take 99 := by
  set s := (h.take 100).takeWhile (fun c => c != 0) with hs
  have hsle : s.length ≤ 100 := strncpy100_length_le h
  have hseq : s = (cstr h).take 100 := hs ▸ strncpy100_prefix_eq h
  by_cases hfull : s.length = 100
  · have hcstr : cstr (entryWrite h) = (entryWrite h).take 99 := by
      refine cstr_eq_take_of 99 _ (fun i hi => ?_) (entryWrite_nul99 h)
      rw [entryWrite, byteAt_set_ne _ _ i 99 (by omega)]
      exact byteAt_strncpy_lt h i (by rw [← hs]; omega)
    rw [hcstr, entryWrite, take_set_of_le _ _ 99 99 (le_refl 99)]
    rw [strncpy100, ← hs, hfull]
    simp only [Nat.sub_self, List.replicate_zero, List.append_nil]
    rw [hseq, List.take_take]
    rfl
  · have hslt : s.length < 100 := Nat.lt_of_le_of_ne hsle hfull
    have hcstr : cstr (entryWrite h) = (entryWrite h).take s.length := by
      refine cstr_eq_take_of s.length _ (fun i hi => ?_) ?_
      · rw [entryWrite, byteAt_set_ne _ _ i 99 (by omega)]
        exact byteAt_strncpy_lt h i (by rw [← hs]; omega)
      · by_cases h99 : s.length = 99
        · rw [h99]
          exact entryWrite_nul99 h
        · rw [entryWrite, byteAt_set_ne _ _ s.length 99 (by omega)]
          rw [strncpy100, ← hs]
          have hright : byteAt (s ++ List.replicate (100 - s.length) 0)
              (s.length + 0) = byteAt (List.replicate (100 - s.length) 0) 0 :=
            byteAt_append_right s _ 0
          rw [Nat.add_zero] at hright
          rw [hright, byteAt_replicate_zero]
    rw [hcstr, entryWrite, take_set_of_le _ _ s.length 99 (by omega)]
    rw [strncpy100, ← hs]
    rw [List.take_append_of_le_length (le_refl s.length), List.take_length]
    have hclen : (cstr h).length < 100 := by
      by_contra hc
      push_neg at hc
      have : s.length = 100 := by
        rw [hseq, List.length_take]
        omega
      omega
    rw [hseq, List.take_of_length_le (by omega),
      List.take_of_length_le (by omega)]

/-- C6 counterexample: the entry stored with prefix `"p"`, name `"x"` has
full path `"p/x"`, a direct child of `"p/"` per the claim's condition, yet
`list("p/")` emits nothing: the loop matches on the name field only. -/
theorem c6_prefixed_child_not_listed :
    directChild [112, 47] (specFullPath prefixedBlock) = true ∧
    list_fuel 1 pTreeSrc 0 [112, 47] 10 = some (0, [], some 0) := by
  refine ⟨by decide, by decide⟩

/-- C6 (amended): when the queried path names a directory entry (`is_dir`
succeeds and the subsequent `is_symlink` probe fails), `list` emits exactly
the entries whose stored name (not full path: the prefix field is ignored)
starts with the path, continues with at most one slash which, if present, is
final, and differs from the path — in archive order, truncated to the caller
capacity and to 99 name bytes per entry. -/
theorem c6_list_yields_direct_children (src path : List Nat) (p1 p2 : Nat)
    (fuel cap : Nat) (hp : 0 ∉ path)
    (hd : check_flag_st src 0 path 53 = (1, p1))
    (hs : check_flag_st src p1 path 50 = (0, p2)) :
    ∃ out : List (List Nat),
      list_fuel fuel src 0 path cap =
        some ((out.length : Int), out, some out.length) ∧
      out.map cstr =
        (specListEntries (blocksFrom src 0) path cap).map
          (fun n => n.take 99) := by
  refine ⟨((matchingBlocks (blocksFrom src 0) path).take cap).map entryWrite,
    ?_, ?_⟩
  · rw [list_fuel, hd]
    simp only [Prod.fst, Prod.snd]
    norm_num
    rw [hs]
    simp only [Prod.fst, Prod.snd]
    norm_num
    rw [list_loop_spec]
    simp only [Nat.sub_zero, List.nil_append, List.length_map, blocksFrom,
      List.length_take, List.map_take]
    simp [Nat.cast_min]
  · rw [specListEntries]
    have hpt : ∀ b ∈ (matchingBlocks (blocksFrom src 0) path).take cap,
        (cstr ∘ entryWrite) b = ((fun n => List.take 99 n) ∘ cstr) b := by
      intro b _
      simp [Function.comp, cstr_entryWrite]
    rw [List.map_map, List.map_congr_left hpt, ← List.map_map, List.map_take,
      matchingBlocks_filter path hp]

/-- C6 witness: the specification's own example tree, listing `dir/`. -/
theorem c6_list_yields_direct_children_witness :
    ∃ out : List (List Nat),
      list_fuel 1 treeSrc 0 dirPath 10 =
        some ((out.length : Int), out, some out.length) ∧
      out.map cstr =
        (specListEntries (blocksFrom treeSrc 0) dirPath 10).map
          (fun n => n.take 99) :=
  c6_list_yields_direct_children treeSrc dirPath 512 0 1 10 (by decide)
    (by decide) (by decide)

/-- C7 counterexample: both `dir/a` and `dir/b` match `"dir/"`, but with
caller capacity 1 the reported count (return value and in-out count) is 1,
not the claimed overall total 2: only written entries are counted. -/
theorem c7_truncation_not_reported :
    specMatchCount (blocksFrom twoChildSrc 0) dirPath = 2 ∧
    list_fuel 1 twoChildSrc 0 dirPath 1 =
      some (1, [entryWrite dirAHdr], some 1) := by
  refine ⟨by decide, by decide⟩

/-- C7 (amended): at most `cap` matching entries are written, and the
reported count equals the number written, `min cap total_matches` — excess
matches are neither written nor counted, so truncation is not signalled. -/
theorem c7_count_equals_min (src path : List Nat) (p1 p2 fuel cap : Nat)
    (hp : 0 ∉ path)
    (hd : check_flag_st src 0 path 53 = (1, p1))
    (hs : check_flag_st src p1 path 50 = (0, p2)) :
    ∃ out : List (List Nat),
      list_fuel fuel src 0 path cap =
        some ((out.length : Int), out, some out.length) ∧
      out.length = min cap (specMatchCount (blocksFrom src 0) path) := by
  obtain ⟨out, h1, h2⟩ :=
    c6_list_yields_direct_children src path p1 p2 fuel cap hp hd hs
  refine ⟨out, h1, ?_⟩
  have hlen : (out.map cstr).length =
      ((specListEntries (blocksFrom src 0) path cap).map
        (fun n => n.take 99)).length := by rw [h2]
  rw [List.length_map, List.length_map, specListEntries, List.length_take]
    at hlen
  rw [hlen, specMatchCount]

/-- C7 witness: capacity 3 against the 2 matches of `twoChildSrc`. -/
theorem c7_count_equals_min_witness :
    ∃ out : List (List Nat),
      list_fuel 1 twoChildSrc 0 dirPath 3 =
        some ((out.length : Int), out, some out.length) ∧
      out.length = min 3 (specMatchCount (blocksFrom twoChildSrc 0) dirPath) :=
  c7_count_equals_min twoChildSrc dirPath 512 0 1 3 (by decide) (by decide)
    (by decide)

/-- C10: every buffer `list` writes is exactly 100 bytes, has byte index 99
forced to NUL, and carries at most 99 name characters, regardless of the
stored name's length. -/
theorem c10_written_names_truncated (fuel : Nat) :
    ∀ (src : List Nat) (pos : Nat) (path : List Nat) (cap : Nat)
      (r : Int × List (List Nat) × Option Nat),
      list_fuel fuel src pos path cap = some r →
      ∀ e ∈ r.2.1,
        e.length = 100 ∧ byteAt e 99 = 0 ∧ (cstr e).length ≤ 99 := by
  induction fuel with
  | zero =>
    intro src pos path cap r hlf e he
    rw [list_fuel] at hlf
    by_cases hd0 : (check_flag_st src pos path 53).1 = 0
    · by_cases hs0 : (check_flag_st src
          (check_flag_st src pos path 53).2 path 50).1 = 0
      · simp only [hd0, hs0, if_true, ite_true] at hlf
        obtain rfl : (0, [], none) = r := Option.some.inj hlf
        simp at he
      · simp only [hd0, hs0, if_true, ite_true, if_false, ite_false,
          Bool.true_eq_false, not_false_iff] at hlf
        by_cases hs2 : (check_flag_st src
            (check_flag_st src (check_flag_st src pos path 53).2 path 50).2
            path 50).1 = 0
        · simp only [hs2, ne_eq, not_true, if_false, ite_false,
            not_false_iff, if_true, ite_true] at hlf
          rw [list_loop_spec] at hlf
          obtain rfl := Option.some.inj hlf
          simp only [List.nil_append] at he
          obtain ⟨b, _, rfl⟩ := List.mem_map.1 he
          refine ⟨entryWrite_length b, entryWrite_nul99 b, ?_⟩
          rw [cstr_entryWrite, List.length_take]
          exact Nat.min_le_left _ _
        · simp only [hs2, ne_eq, not_false_iff, if_true, ite_true] at hlf
          cases hg : (get_symlink_fuel 0 src
              (check_flag_st src (check_flag_st src
                (check_flag_st src pos path 53).2 path 50).2 path 50).2
              path).1 with
          | none => rw [hg] at hlf; cases hlf
          | some o =>
            cases o with
            | none =>
              rw [hg] at hlf
              obtain rfl : (0, [], none) = r := Option.some.inj hlf
              simp at he
            | some np => rw [hg] at hlf; cases hlf
    · by_cases hs2 : (check_flag_st src
          (check_flag_st src pos path 53).2 path 50).1 = 0
      · simp only [hd0, hs2, if_false, ite_false, Bool.true_eq_false,
          not_false_iff, ne_eq, not_true, if_true, ite_true] at hlf
        rw [list_loop_spec] at hlf
        obtain rfl := Option.some.inj hlf
        simp only [List.nil_append] at he
        obtain ⟨b, _, rfl⟩ := List.mem_map.1 he
        refine ⟨entryWrite_length b, entryWrite_nul99 b, ?_⟩
        rw [cstr_entryWrite, List.length_take]
        exact Nat.min_le_left _ _
      · simp only [hd0, hs2, if_false, ite_false, Bool.true_eq_false,
          not_false_iff, ne_eq, if_true, ite_true] at hlf
        cases hg : (get_symlink_fuel 0 src
            (check_flag_st src (check_flag_st src pos path 53).2 path 50).2
            path).1 with
        | none => rw [hg] at hlf; cases hlf
        | some o =>
          cases o with
          | none =>
            rw [hg] at hlf
            obtain rfl : (0, [], none) = r := Option.some.inj hlf
            simp at he
          | some np => rw [hg] at hlf; cases hlf
  | succ f ih =>
    intro src pos path cap r hlf e he
    rw [list_fuel] at hlf
    by_cases hd0 : (check_flag_st src pos path 53).1 = 0
    · by_cases hs0 : (check_flag_st src
          (check_flag_st src pos path 53).2 path 50).1 = 0
      · simp only [hd0, hs0, if_true, ite_true] at hlf
        obtain rfl : (0, [], none) = r := Option.some.inj hlf
        simp at he
      · simp only [hd0, hs0, if_true, ite_true, if_false, ite_false,
          Bool.true_eq_false, not_false_iff] at hlf
        by_cases hs2 : (check_flag_st src
            (check_flag_st src (check_flag_st src pos path 53).2 path 50).2
            path 50).1 = 0
        · simp only [hs2, ne_eq, not_true, if_false, ite_false,
            not_false_iff, if_true, ite_true] at hlf
          rw [list_loop_spec] at hlf
          obtain rfl := Option.some.inj hlf
          simp only [List.nil_append] at he
          obtain ⟨b, _, rfl⟩ := List.mem_map.1 he
          refine ⟨entryWrite_length b, entryWrite_nul99 b, ?_⟩
          rw [cstr_entryWrite, List.length_take]
          exact Nat.min_le_left _ _
        · simp only [hs2, ne_eq, not_false_iff, if_true, ite_true] at hlf
          cases hg : (get_symlink_fuel (f + 1) src
              (check_flag_st src (check_flag_st src
                (check_flag_st src pos path 53).2 path 50).2 path 50).2
              path).1 with
          | none => rw [hg] at hlf; cases hlf
          | some o =>
            cases o with
            | none =>
              rw [hg] at hlf
              obtain rfl : (0, [], none) = r := Option.some.inj hlf
              simp at he
            | some np =>
              rw [hg] at hlf
              exact ih src _ np cap r hlf e he
    · by_cases hs2 : (check_flag_st src
          (check_flag_st src pos path 53).2 path 50).1 = 0
      · simp only [hd0, hs2, if_false, ite_false, Bool.true_eq_false,
          not_false_iff, ne_eq, not_true, if_true, ite_true] at hlf
        rw [list_loop_spec] at hlf
        obtain rfl := Option.some.inj hlf
        simp only [List.nil_append] at he
        obtain ⟨b, _, rfl⟩ := List.mem_map.1 he
        refine ⟨entryWrite_length b, entryWrite_nul99 b, ?_⟩
        rw [cstr_entryWrite, List.length_take]
        exact Nat.min_le_left _ _
      · simp only [hd0, hs2, if_false, ite_false, Bool.true_eq_false,
          not_false_iff, ne_eq, if_true, ite_true] at hlf
        cases hg : (get_symlink_fuel (f + 1) src
            (check_flag_st src (check_flag_st src pos path 53).2 path 50).2
            path).1 with
        | none => rw [hg] at hlf; cases hlf
        | some o =>
          cases o with
          | none =>
            rw [hg] at hlf
            obtain rfl : (0, [], none) = r := Option.some.inj hlf
            simp at he
          | some np =>
            rw [hg] at hlf
            exact ih src _ np cap r hlf e he

/-- C10 witness: the first buffer written when listing the example tree. -/
theorem c10_written_names_truncated_witness :
    (entryWrite dirAHdr).length = 100 ∧ byteAt (entryWrite dirAHdr) 99 = 0 ∧
    (cstr (entryWrite dirAHdr)).length ≤ 99 :=
  c10_written_names_truncated 1 treeSrc 0 dirPath 10
    (1, [entryWrite dirAHdr], some 1)
    (by decide) (entryWrite dirAHdr) (by decide)
